import Mathlib

/-!
# Verification of the dp_aero_L2 sensor-fusion coordinator

A shallow embedding of the core components of the `dp_aero_L2` repository:
the Node Registry (`include/l2_fusion_manager.h`), the message queue of the
Fusion Manager, the algorithm-level and per-task state machines
(`include/algorithm_framework.h`, `include/task_manager.h`), the Task
Manager, the strategy layer (`src/algorithm_strategies.cpp`), and the radar
ingestion path of the reference `TargetTrackingAlgorithm`
(`include/algorithms/target_tracking_algorithm.h`).

Modelling conventions:
* `std::unordered_map` becomes an association list `List (String × α)`
  with first-binding lookup; insertion overwrites an existing binding in
  place and appends a fresh binding at the end.  None of the verified
  properties depend on iteration order of the hash maps.
* `std::chrono::steady_clock::time_point` becomes `ℚ` (seconds).  Code that
  calls `steady_clock::now()` internally receives `now` as an argument.
  The default-constructed sentinel `time_point{}` becomes `Option.none`
  where the source tests against it, and `0` (the epoch) where the source
  compares sentinel values numerically.
* `float` becomes `ℚ`.  Transcendental library calls (`cos`, `sin`,
  `sqrt`, `exp`, `atan2`, `asin`) are abstracted into a `MathOps`
  record of rational-valued functions; theorems that need concrete values
  assume only exact identities that IEEE floats also satisfy
  (e.g. `cos 0 = 1`).
* `std::any` becomes the tagged union `DynVal`, and `std::any_cast` a
  tag-checked projection.
-/

namespace DpAero

/-! ## Association-list maps (model of `std::unordered_map`) -/

/-- First-binding lookup in an association list. -/
def alookup {α : Type} (l : List (String × α)) (k : String) : Option α :=
  match l with
  | [] => none
  | (k', v) :: rest => if k' = k then some v else alookup rest k

/-- Key membership, `m.find(k) != m.end()` in C++. -/
def hasKey {α : Type} (l : List (String × α)) (k : String) : Bool :=
  (alookup l k).isSome

/-- `m[k] = v`: overwrite the binding of `k` in place, or append a fresh
binding if the key is absent (insertion point is irrelevant for an
unordered map). -/
def aset {α : Type} (l : List (String × α)) (k : String) (v : α) :
    List (String × α) :=
  match l with
  | [] => [(k, v)]
  | (k', v') :: rest =>
      if k' = k then (k, v) :: rest else (k', v') :: aset rest k v

/-- `m.erase(k)`. -/
def aerase {α : Type} (l : List (String × α)) (k : String) :
    List (String × α) :=
  l.filter (fun p => p.1 ≠ k)

/-! ## Node Registry (`NodeRegistry`, `include/l2_fusion_manager.h`)

Three internal maps guarded by one `shared_mutex`; every public operation
holds the lock for its whole body, so a sequence of operations is the
right concurrency-free model. -/

/-- `common::NodeIdentity`; only `node_id` is inspected by the registry. -/
structure NodeIdentity where
  node_id : String
  deriving DecidableEq, Repr

/-- `common::NodeStatus` is opaque to the registry; keep it abstract. -/
structure NodeStatus where
  code : Nat
  deriving DecidableEq, Repr

/-- The three maps of `NodeRegistry`. -/
structure NodeRegistry where
  nodes : List (String × NodeIdentity)
  last_seen : List (String × ℚ)
  node_status : List (String × NodeStatus)

def NodeRegistry.empty : NodeRegistry := ⟨[], [], []⟩

/-- `register_node`: writes `nodes_` and `last_seen_` (NOT `node_status_`). -/
def register_node (r : NodeRegistry) (node : NodeIdentity) (now : ℚ) :
    NodeRegistry :=
  { r with
    nodes := aset r.nodes node.node_id node
    last_seen := aset r.last_seen node.node_id now }

/-- `update_node_heartbeat`: writes `last_seen_` only. -/
def update_node_heartbeat (r : NodeRegistry) (node_id : String) (now : ℚ) :
    NodeRegistry :=
  { r with last_seen := aset r.last_seen node_id now }

/-- `update_node_status`: writes `node_status_` and `last_seen_`. -/
def update_node_status (r : NodeRegistry) (node_id : String)
    (status : NodeStatus) (now : ℚ) : NodeRegistry :=
  { r with
    node_status := aset r.node_status node_id status
    last_seen := aset r.last_seen node_id now }

/-- `get_active_nodes`: ids whose `now - last_seen < timeout`. -/
def get_active_nodes (r : NodeRegistry) (timeout : ℚ) (now : ℚ) :
    List String :=
  (r.last_seen.filter (fun p => now - p.2 < timeout)).map Prod.fst

/-- `get_node`: identity-map lookup only. -/
def get_node (r : NodeRegistry) (node_id : String) : Option NodeIdentity :=
  alookup r.nodes node_id

/-- `remove_node`: erases the id from all three maps. -/
def remove_node (r : NodeRegistry) (node_id : String) : NodeRegistry :=
  { nodes := aerase r.nodes node_id
    last_seen := aerase r.last_seen node_id
    node_status := aerase r.node_status node_id }

/-- `check_and_remove_timed_out_nodes`: single pass over `last_seen_`;
every entry with `now - last_seen ≥ timeout` is collected and erased from
all three maps.  Returns the removed ids and the new registry. -/
def check_and_remove_timed_out_nodes (r : NodeRegistry) (timeout : ℚ)
    (now : ℚ) : List String × NodeRegistry :=
  let removed :=
    (r.last_seen.filter (fun p => ¬ (now - p.2 < timeout))).map Prod.fst
  (removed,
    { nodes := r.nodes.filter (fun p => ¬ p.1 ∈ removed)
      last_seen := r.last_seen.filter (fun p => now - p.2 < timeout)
      node_status := r.node_status.filter (fun p => ¬ p.1 ∈ removed) })

/-- One registry operation, for quantifying over operation sequences. -/
inductive RegOp where
  | reg (node : NodeIdentity) (now : ℚ)
  | heartbeat (node_id : String) (now : ℚ)
  | status (node_id : String) (st : NodeStatus) (now : ℚ)
  | remove (node_id : String)
  | sweep (timeout : ℚ) (now : ℚ)

def applyRegOp (r : NodeRegistry) : RegOp → NodeRegistry
  | .reg node now => register_node r node now
  | .heartbeat id now => update_node_heartbeat r id now
  | .status id st now => update_node_status r id st now
  | .remove id => remove_node r id
  | .sweep timeout now => (check_and_remove_timed_out_nodes r timeout now).2

def applyRegOps (r : NodeRegistry) (ops : List RegOp) : NodeRegistry :=
  ops.foldl applyRegOp r

/-- The claimed consistency predicate: an id is in all three maps or in
none of them. -/
def allThreeOrNone (r : NodeRegistry) (id : String) : Prop :=
  (hasKey r.nodes id ∧ hasKey r.last_seen id ∧ hasKey r.node_status id) ∨
  (¬ hasKey r.nodes id ∧ ¬ hasKey r.last_seen id ∧ ¬ hasKey r.node_status id)

instance (r : NodeRegistry) (id : String) : Decidable (allThreeOrNone r id) := by
  unfold allThreeOrNone
  infer_instance

/-- The invariant the code actually maintains: the identity and status
maps only mention ids that have a `last_seen` record. -/
def lastSeenCovers (r : NodeRegistry) : Prop :=
  ∀ id : String,
    (hasKey r.nodes id = true → hasKey r.last_seen id = true) ∧
    (hasKey r.node_status id = true → hasKey r.last_seen id = true)

/-! ## Fusion Manager message queue
(`L2FusionManager::enqueue_message` / `worker_thread_func`,
`include/l2_fusion_manager.h`)

The queue is a `std::queue` guarded by `queue_mutex_`; `enqueue_message`
holds the lock for its whole body, and a worker pops exactly one front
element per iteration under the same lock, so lists of messages model the
interleavings faithfully. -/

/-- `enqueue_message`: when the queue already holds `message_queue_size`
messages the front (oldest) is popped first, then the new message is
pushed at the back. -/
def enqueue_message {M : Type} (cap : Nat) (q : List M) (m : M) : List M :=
  (if cap ≤ q.length then q.tail else q) ++ [m]

/-- The order in which a single worker processes a queue that receives no
further messages: repeatedly take the front and pop it. -/
def worker_process_order {M : Type} : List M → List M
  | [] => []
  | m :: rest => m :: worker_process_order rest

/-! ## Algorithm-level state machine
(`State`, `Transition`, `StateManager`, `include/algorithm_framework.h`)

`AlgorithmContext` stores `current_state_name` and a `current_state`
pointer into the `StateManager`'s state map.  The pointer is modelled by
the name it was resolved from (`none` = `nullptr`); dereferencing looks
the name up in the machine's map, which is exact as long as the state map
itself is not mutated between transitions (no code path does that after
`setup_state_machine`).  The context's remaining fields are abstracted
into a type parameter `D`, since hooks may mutate them arbitrarily. -/

/-- The slice of `AlgorithmContext` that `StateManager` manipulates. -/
structure SMCtx (D : Type) where
  current_state_name : String
  current_state : Option String
  data : D

/-- `fusion::State`: entry/exit hooks (`on_update` is dispatched by the
concrete algorithm's `update`, not by `try_transition`). -/
structure SMState (D : Type) where
  name : String
  on_enter : Option (SMCtx D → SMCtx D) := none
  on_exit : Option (SMCtx D → SMCtx D) := none
  on_update : Option (SMCtx D → SMCtx D) := none

/-- `fusion::Transition`. -/
structure SMTransition (D : Type) where
  from_state : String
  to_state : String
  trigger : String
  condition : Option (SMCtx D → Bool) := none
  action : Option (SMCtx D → SMCtx D) := none

/-- `fusion::StateManager`: a state map and transitions kept in
registration order. -/
structure StateManager (D : Type) where
  states : List (String × SMState D)
  transitions : List (SMTransition D)
  initial_state : String

def StateManager.get_state {D : Type} (sm : StateManager D)
    (name : String) : Option (SMState D) :=
  alookup sm.states name

/-- Dereference the stored `current_state` pointer. -/
def StateManager.curState {D : Type} (sm : StateManager D)
    (ctx : SMCtx D) : Option (SMState D) :=
  ctx.current_state.bind sm.get_state

/-- `if (hook) hook(context)`. -/
def applyOptHook {D : Type} (f : Option (SMCtx D → SMCtx D))
    (ctx : SMCtx D) : SMCtx D :=
  match f with
  | some g => g ctx
  | none => ctx

/-- The loop guard of `try_transition`: `from == current && trigger
matches && (!condition || condition(ctx))`, evaluated on the unmodified
context. -/
def transitionEnabled {D : Type} (tr : SMTransition D) (ctx : SMCtx D)
    (trigger : String) : Bool :=
  decide (tr.from_state = ctx.current_state_name) &&
  decide (tr.trigger = trigger) &&
  (match tr.condition with
   | none => true
   | some c => c ctx)

/-- The body of a firing transition: exit hook of the stored current
state, then the transition action, then the state assignment, then the
entry hook of the freshly resolved target state. -/
def fireTransition {D : Type} (sm : StateManager D) (tr : SMTransition D)
    (ctx : SMCtx D) : SMCtx D :=
  let ctx1 := applyOptHook ((sm.curState ctx).bind SMState.on_exit) ctx
  let ctx2 := applyOptHook tr.action ctx1
  let ctx3 : SMCtx D :=
    { ctx2 with
      current_state_name := tr.to_state
      current_state := (sm.get_state tr.to_state).map (fun _ => tr.to_state) }
  applyOptHook ((sm.get_state tr.to_state).bind SMState.on_enter) ctx3

/-- `StateManager::try_transition`: scan `transitions_` in registration
order, fire the first enabled one. -/
def StateManager.try_transition {D : Type} (sm : StateManager D)
    (ctx : SMCtx D) (trigger : String) : Bool × SMCtx D :=
  go sm.transitions
where
  go : List (SMTransition D) → Bool × SMCtx D
  | [] => (false, ctx)
  | tr :: rest =>
      if transitionEnabled tr ctx trigger then (true, fireTransition sm tr ctx)
      else go rest

/-- The specification shape of `try_transition`: select the first match
with `find?`, then run the effect pipeline. -/
def StateManager.try_transition_spec {D : Type} (sm : StateManager D)
    (ctx : SMCtx D) (trigger : String) : Bool × SMCtx D :=
  match sm.transitions.find? (fun tr => transitionEnabled tr ctx trigger) with
  | some tr => (true, fireTransition sm tr ctx)
  | none => (false, ctx)

/-! ## Per-task state machine
(`TaskState`, `TaskTransition`, `TaskStateMachine`,
`include/task_manager.h`)

Same shape, with two differences faithful to the source: the machine
itself stores `current_state_`, and both the exit and the entry hooks are
resolved by name lookup (`get_state`), not through a stored pointer.
Hooks additionally receive the task id; the context type is an opaque
parameter `C`. -/

structure TaskSMState (C : Type) where
  name : String
  on_enter : Option (C → String → C) := none
  on_exit : Option (C → String → C) := none
  on_update : Option (C → String → C) := none

structure TaskSMTransition (C : Type) where
  from_state : String
  to_state : String
  trigger : String
  condition : Option (C → String → Bool) := none
  action : Option (C → String → C) := none

structure TaskStateMachine (C : Type) where
  states : List (String × TaskSMState C)
  transitions : List (TaskSMTransition C)
  initial_state : String
  current_state : String

def TaskStateMachine.get_state {C : Type} (m : TaskStateMachine C)
    (name : String) : Option (TaskSMState C) :=
  alookup m.states name

def taskApplyHook {C : Type} (f : Option (C → String → C)) (ctx : C)
    (task_id : String) : C :=
  match f with
  | some g => g ctx task_id
  | none => ctx

def taskTransitionEnabled {C : Type} (tr : TaskSMTransition C)
    (current : String) (ctx : C) (task_id : String) (trigger : String) :
    Bool :=
  decide (tr.from_state = current) && decide (tr.trigger = trigger) &&
  (match tr.condition with
   | none => true
   | some c => c ctx task_id)

/-- Effects of a firing per-task transition: exit hook of the current
state (by name), action, state assignment, entry hook of the target. -/
def TaskStateMachine.fire {C : Type} (m : TaskStateMachine C)
    (tr : TaskSMTransition C) (ctx : C) (task_id : String) :
    TaskStateMachine C × C :=
  let ctx1 := taskApplyHook
    ((m.get_state m.current_state).bind TaskSMState.on_exit) ctx task_id
  let ctx2 := taskApplyHook tr.action ctx1 task_id
  let ctx3 := taskApplyHook
    ((m.get_state tr.to_state).bind TaskSMState.on_enter) ctx2 task_id
  ({ m with current_state := tr.to_state }, ctx3)

/-- `TaskStateMachine::try_transition`. -/
def TaskStateMachine.try_transition {C : Type} (m : TaskStateMachine C)
    (ctx : C) (task_id : String) (trigger : String) :
    Bool × TaskStateMachine C × C :=
  go m.transitions
where
  go : List (TaskSMTransition C) → Bool × TaskStateMachine C × C
  | [] => (false, m, ctx)
  | tr :: rest =>
      if taskTransitionEnabled tr m.current_state ctx task_id trigger then
        (true, m.fire tr ctx task_id)
      else go rest

/-- Specification shape of the per-task `try_transition`. -/
def TaskStateMachine.try_transition_spec {C : Type} (m : TaskStateMachine C)
    (ctx : C) (task_id : String) (trigger : String) :
    Bool × TaskStateMachine C × C :=
  match m.transitions.find?
      (fun tr => taskTransitionEnabled tr m.current_state ctx task_id trigger)
    with
  | some tr => (true, m.fire tr ctx task_id)
  | none => (false, m, ctx)

/-- `TaskStateMachine::update`: dispatch the current state's `on_update`. -/
def TaskStateMachine.update {C : Type} (m : TaskStateMachine C) (ctx : C)
    (task_id : String) : C :=
  taskApplyHook ((m.get_state m.current_state).bind TaskSMState.on_update)
    ctx task_id

/-! ## Targets and the dynamic-typed store
(`include/target.h`, `AlgorithmContext::get_data/set_data`,
`Task::get_parameter/set_parameter`)

`algorithm_data` and `parameters_` are `string → std::any` maps.
`std::any` is modelled by the tagged union `DynVal`, whose repertoire
covers the value types the repository actually stores; `std::any_cast`
is a tag-checked projection that fails (`bad_any_cast`) on any tag
mismatch. -/

/-- `algorithms::Target` (`include/target.h`): position, velocity,
confidence, last update instant (sentinel `time_point{}` = `none`), and
per-sensor detection counts. -/
structure Target where
  target_id : String
  x : ℚ := 0
  y : ℚ := 0
  z : ℚ := 0
  vx : ℚ := 0
  vy : ℚ := 0
  vz : ℚ := 0
  confidence : ℚ := 0
  last_update : Option ℚ := none
  sensor_detections : List (String × Int) := []
  deriving DecidableEq, Repr

/-- The value types stored into `std::any` slots by this repository. -/
inductive DynVal where
  | vBool : Bool → DynVal
  | vInt : Int → DynVal
  | vFloat : ℚ → DynVal
  | vString : String → DynVal
  | vTime : ℚ → DynVal
  | vTargets : List (String × Target) → DynVal
  deriving DecidableEq, Repr

/-- The compile-time type requested from `std::any_cast<T>`. -/
inductive TypeTag where
  | tBool | tInt | tFloat | tString | tTime | tTargets
  deriving DecidableEq, Repr

def TypeTag.denote : TypeTag → Type
  | .tBool => Bool
  | .tInt => Int
  | .tFloat => ℚ
  | .tString => String
  | .tTime => ℚ
  | .tTargets => List (String × Target)

/-- The runtime type of a stored `std::any` value. -/
def DynVal.tag : DynVal → TypeTag
  | .vBool _ => .tBool
  | .vInt _ => .tInt
  | .vFloat _ => .tFloat
  | .vString _ => .tString
  | .vTime _ => .tTime
  | .vTargets _ => .tTargets

/-- `std::any_cast<T>(v)`: succeeds exactly when the stored type is the
requested one, otherwise throws `bad_any_cast` (the `error` case). -/
def any_cast : (τ : TypeTag) → DynVal → Except Unit τ.denote
  | .tBool, .vBool b => .ok b
  | .tInt, .vInt n => .ok n
  | .tFloat, .vFloat q => .ok q
  | .tString, .vString s => .ok s
  | .tTime, .vTime t => .ok t
  | .tTargets, .vTargets ts => .ok ts
  | _, _ => .error ()

/-- `AlgorithmContext::get_data<T>(key)`: absent key gives `nullopt`; a
stored value of a different type makes `any_cast` throw, the catch block
turns it into `nullopt`, and no exception escapes (the function is
total). -/
def context_get_data (store : List (String × DynVal)) (τ : TypeTag)
    (key : String) : Option τ.denote :=
  match alookup store key with
  | none => none
  | some v =>
      match any_cast τ v with
      | .ok x => some x
      | .error _ => none

/-- `AlgorithmContext::set_data`. -/
def context_set_data (store : List (String × DynVal)) (key : String)
    (v : DynVal) : List (String × DynVal) :=
  aset store key v

/-! ## Tasks and the Task Manager (`include/task_manager.h`)

`Task` owns a per-task `TaskStateMachine` built by
`setup_default_state_machine`; all of that machine's hooks are empty
lambdas or absent, which the embedding keeps as identity hooks /
`none` exactly as registered.  The task-manager context type is the
opaque parameter `C` (the `AlgorithmContext`). -/

inductive TaskType where
  | TRACK_TARGET | SCAN_AREA | POINT_GIMBAL | CALIBRATE_SENSOR
  | MONITOR_STATUS
  deriving DecidableEq, Repr

inductive TaskPriority where
  | LOW | NORMAL | HIGH | CRITICAL
  deriving DecidableEq, Repr

/-- The numeric values LOW=1, NORMAL=5, HIGH=8, CRITICAL=10. -/
def TaskPriority.val : TaskPriority → Nat
  | .LOW => 1
  | .NORMAL => 5
  | .HIGH => 8
  | .CRITICAL => 10

inductive TaskStatus where
  | CREATED | ASSIGNED | ACTIVE | PAUSED | COMPLETED | FAILED | CANCELLED
  deriving DecidableEq, Repr

/-- `Task::setup_default_state_machine`: four states whose registered
hooks are empty lambdas (identity), five fixed transitions, initial
state INITIALIZING. -/
def defaultTaskStateMachine (C : Type) : TaskStateMachine C :=
  { states :=
      [("INITIALIZING",
        { name := "INITIALIZING", on_enter := some (fun ctx _ => ctx) }),
       ("EXECUTING",
        { name := "EXECUTING", on_update := some (fun ctx _ => ctx) }),
       ("COMPLETING",
        { name := "COMPLETING", on_enter := some (fun ctx _ => ctx) }),
       ("ERROR",
        { name := "ERROR", on_enter := some (fun ctx _ => ctx) })]
    transitions :=
      [{ from_state := "INITIALIZING", to_state := "EXECUTING",
         trigger := "start" },
       { from_state := "EXECUTING", to_state := "COMPLETING",
         trigger := "complete" },
       { from_state := "INITIALIZING", to_state := "ERROR",
         trigger := "error" },
       { from_state := "EXECUTING", to_state := "ERROR",
         trigger := "error" },
       { from_state := "ERROR", to_state := "INITIALIZING",
         trigger := "retry" }]
    initial_state := "INITIALIZING"
    current_state := "INITIALIZING" }

/-- `fusion::Task`. -/
structure Task (C : Type) where
  task_id : String
  target_id : String
  device_id : String := ""
  type : TaskType
  priority : TaskPriority
  status : TaskStatus := .CREATED
  created_time : ℚ
  assigned_time : Option ℚ := none
  started_time : Option ℚ := none
  completed_time : Option ℚ := none
  parameters : List (String × DynVal) := []
  state_machine : TaskStateMachine C
  progress : ℚ := 0
  status_message : String := ""

/-- The `Task` constructor. -/
def Task.create (C : Type) (task_id target_id : String) (ty : TaskType)
    (prio : TaskPriority) (now : ℚ) : Task C :=
  { task_id := task_id, target_id := target_id, type := ty, priority := prio
    created_time := now, state_machine := defaultTaskStateMachine C }

/-- `Task::set_device_id`: stores the device and promotes a CREATED task
to ASSIGNED, stamping the assignment time. -/
def Task.set_device_id {C : Type} (t : Task C) (device_id : String)
    (now : ℚ) : Task C :=
  let t := { t with device_id := device_id }
  if t.status = .CREATED then
    { t with status := .ASSIGNED, assigned_time := some now }
  else t

/-- `Task::set_status`: ACTIVE stamps `started` once; the three terminal
statuses stamp `completed`, and COMPLETED forces progress to 100. -/
def Task.set_status {C : Type} (t : Task C) (s : TaskStatus) (now : ℚ) :
    Task C :=
  let t := { t with status := s }
  match s with
  | .ACTIVE =>
      if t.started_time = none then { t with started_time := some now }
      else t
  | .COMPLETED => { t with completed_time := some now, progress := 100 }
  | .FAILED => { t with completed_time := some now }
  | .CANCELLED => { t with completed_time := some now }
  | _ => t

/-- `std::clamp`. -/
def clampQ (v lo hi : ℚ) : ℚ :=
  if v < lo then lo else if hi < v then hi else v

/-- `Task::set_progress`. -/
def Task.set_progress {C : Type} (t : Task C) (p : ℚ) : Task C :=
  { t with progress := clampQ p 0 100 }

/-- `Task::get_parameter<T>`: same absent/`bad_any_cast` handling as
`AlgorithmContext::get_data`. -/
def Task.get_parameter {C : Type} (t : Task C) (τ : TypeTag)
    (key : String) : Option τ.denote :=
  match alookup t.parameters key with
  | none => none
  | some v =>
      match any_cast τ v with
      | .ok x => some x
      | .error _ => none

def Task.is_active {C : Type} (t : Task C) : Bool :=
  t.status = .ACTIVE

/-- `Task::is_completed`: COMPLETED, FAILED or CANCELLED. -/
def Task.is_completed {C : Type} (t : Task C) : Bool :=
  t.status = .COMPLETED ∨ t.status = .FAILED ∨ t.status = .CANCELLED

/-- `Task::update_state_machine`. -/
def Task.update_state_machine {C : Type} (t : Task C) (ctx : C) : C :=
  t.state_machine.update ctx t.task_id

/-- `operator[]` followed by `push_back`. -/
def bucketAppend (l : List (String × List String)) (k x : String) :
    List (String × List String) :=
  aset l k (((alookup l k).getD []) ++ [x])

/-- `operator[]` (which creates a missing bucket) followed by
erase–remove of `x`; the bucket key is kept even when the list becomes
empty. -/
def bucketErase (l : List (String × List String)) (k x : String) :
    List (String × List String) :=
  aset l k (((alookup l k).getD []).filter (fun y => y ≠ x))

/-- `fusion::TaskManager`: five maps plus the id counter and the cleanup
timestamp (the constructor initialises it to `now`). -/
structure TaskManager (C : Type) where
  tasks : List (String × Task C)
  target_to_tasks : List (String × List String)
  device_to_tasks : List (String × List String)
  target_primary_device : List (String × String)
  device_capabilities : List (String × List String)
  next_task_id : Nat
  last_cleanup_time : ℚ

def TaskManager.init (C : Type) (now : ℚ) : TaskManager C :=
  { tasks := [], target_to_tasks := [], device_to_tasks := []
    target_primary_device := [], device_capabilities := []
    next_task_id := 1, last_cleanup_time := now }

/-- `TaskManager::create_task`: allocates `task_<n>`, inserts into
`tasks_` and appends to `target_to_tasks_[target_id]`. -/
def TaskManager.create_task {C : Type} (tm : TaskManager C)
    (target_id : String) (ty : TaskType) (prio : TaskPriority) (now : ℚ) :
    String × TaskManager C :=
  let task_id := "task_" ++ toString tm.next_task_id
  let task := Task.create C task_id target_id ty prio now
  (task_id,
   { tm with
     next_task_id := tm.next_task_id + 1
     tasks := aset tm.tasks task_id task
     target_to_tasks := bucketAppend tm.target_to_tasks target_id task_id })

/-- `TaskManager::assign_task_to_device`: fails on an unknown task;
otherwise scrubs the previous device bucket (without dropping it),
stores the device on the task, appends to the new device bucket and
updates the target's primary device. -/
def TaskManager.assign_task_to_device {C : Type} (tm : TaskManager C)
    (task_id device_id : String) (now : ℚ) : Bool × TaskManager C :=
  match alookup tm.tasks task_id with
  | none => (false, tm)
  | some task =>
      let tm1 :=
        if task.device_id ≠ "" then
          { tm with device_to_tasks :=
              bucketErase tm.device_to_tasks task.device_id task_id }
        else tm
      (true,
       { tm1 with
         tasks := aset tm1.tasks task_id (task.set_device_id device_id now)
         device_to_tasks := bucketAppend tm1.device_to_tasks device_id task_id
         target_primary_device :=
           aset tm1.target_primary_device task.target_id device_id })

/-- `TaskManager::register_device_capabilities`. -/
def TaskManager.register_device_capabilities {C : Type}
    (tm : TaskManager C) (device_id : String) (caps : List String) :
    TaskManager C :=
  { tm with device_capabilities := aset tm.device_capabilities device_id caps }

/-- `TaskManager::get_device_capabilities`. -/
def TaskManager.get_device_capabilities {C : Type} (tm : TaskManager C)
    (device_id : String) : List String :=
  (alookup tm.device_capabilities device_id).getD []

/-- `TaskManager::remove_task`: scrubs both reverse indices, dropping a
bucket that becomes empty (and, for the target index, the primary-device
entry), then erases the task. -/
def TaskManager.remove_task {C : Type} (tm : TaskManager C)
    (task_id : String) : Bool × TaskManager C :=
  match alookup tm.tasks task_id with
  | none => (false, tm)
  | some task =>
      let tm1 :=
        match alookup tm.target_to_tasks task.target_id with
        | none => tm
        | some xs =>
            let xs' := xs.filter (fun y => y ≠ task_id)
            if xs'.isEmpty then
              { tm with
                target_to_tasks := aerase tm.target_to_tasks task.target_id
                target_primary_device :=
                  aerase tm.target_primary_device task.target_id }
            else
              { tm with
                target_to_tasks := aset tm.target_to_tasks task.target_id xs' }
      let tm2 :=
        if task.device_id ≠ "" then
          match alookup tm1.device_to_tasks task.device_id with
          | none => tm1
          | some ys =>
              let ys' := ys.filter (fun y => y ≠ task_id)
              if ys'.isEmpty then
                { tm1 with
                  device_to_tasks := aerase tm1.device_to_tasks task.device_id }
              else
                { tm1 with
                  device_to_tasks :=
                    aset tm1.device_to_tasks task.device_id ys' }
        else tm1
      (true, { tm2 with tasks := aerase tm2.tasks task_id })

/-- `TaskManager::update_all_tasks`: run the per-task state machine's
`on_update` for every ACTIVE task; then, when more than 5 minutes have
passed since the last cleanup, only reset the cleanup timestamp — the
call to `cleanup_completed_tasks()` is commented out in the source
("would need to be done with unique_lock ... keeping simple for now"),
so no task is removed. -/
def TaskManager.update_all_tasks {C : Type} (ctx : C) (tm : TaskManager C)
    (now : ℚ) : C × TaskManager C :=
  let ctx' := tm.tasks.foldl
    (fun c p => if p.2.is_active then p.2.update_state_machine c else c) ctx
  if 300 < now - tm.last_cleanup_time then
    (ctx', { tm with last_cleanup_time := now })
  else
    (ctx', tm)

/-- `TaskManager::cleanup_completed_tasks` (defined in the source but
never called): removes every terminal-state task whose completion time is
before `now - 1h`.  A task whose `completed` stamp was never set compares
as the epoch. -/
def TaskManager.cleanup_completed_tasks {C : Type} (tm : TaskManager C)
    (now : ℚ) : TaskManager C :=
  let cutoff := now - 3600
  let to_remove := (tm.tasks.filter
    (fun p => p.2.is_completed && decide (p.2.completed_time.getD 0 < cutoff))
    ).map Prod.fst
  to_remove.foldl (fun acc id => (acc.remove_task id).2) tm

/-! ## Strategy layer (`src/algorithm_strategies.cpp`)

Float-valued library calls are abstracted into `MathOps`; everything
else is rational arithmetic translated literally.  `std::sort` with the
comparator `priority(a) > priority(b)` is modelled by insertion sort
over the relation `priority(b) ≤ priority(a)`: the C++ standard only
promises a permutation sorted w.r.t. the comparator, which any correct
sort (insertion sort included) realises. -/

/-- The `<cmath>` calls used by the strategies and the tracking
algorithm, as unknown rational-valued functions. -/
structure MathOps where
  cos : ℚ → ℚ
  sin : ℚ → ℚ
  sqrt : ℚ → ℚ
  exp : ℚ → ℚ
  atan2 : ℚ → ℚ → ℚ
  asin : ℚ → ℚ

/-- `ConfidenceBasedPrioritizer::calculate_priority`. -/
def ConfidenceBasedPrioritizer.calculate_priority (t : Target) : ℚ :=
  t.confidence

/-- Generic `prioritize_targets`: sort descending by priority (the
`std::sort` comparator is `priority(a) > priority(b)`). -/
def prioritize_targets {α β : Type} [LinearOrder β] (prio : α → β)
    (l : List α) : List α :=
  List.insertionSort (fun a b => prio b ≤ prio a) l

/-- Generic `select_highest_priority_target`: `std::max_element` keeps
the first element and replaces it only on strictly greater priority, so
ties resolve to the earliest occurrence; empty input gives null. -/
def select_highest_priority_target {α β : Type} [LinearOrder β]
    (prio : α → β) : List α → Option α
  | [] => none
  | h :: t =>
      some (t.foldl (fun best cur => if prio best < prio cur then cur else best) h)

def ConfidenceBasedPrioritizer.prioritize_targets (l : List Target) :
    List Target :=
  DpAero.prioritize_targets ConfidenceBasedPrioritizer.calculate_priority l

def ConfidenceBasedPrioritizer.select_highest_priority_target
    (l : List Target) : Option Target :=
  DpAero.select_highest_priority_target
    ConfidenceBasedPrioritizer.calculate_priority l

/-- `ThreatBasedPrioritizer::ThreatParameters` with the source
defaults. -/
structure ThreatParameters where
  range_weight : ℚ := 3/10
  velocity_weight : ℚ := 1/5
  confidence_weight : ℚ := 3/10
  heading_weight : ℚ := 1/5

/-- A float division whose result is non-finite when the divisor is 0
(in the source the only reachable such case is `0.0f/0.0f = NaN`:
`speed == 0` forces the dot-product numerator to 0). -/
def fdiv (a b : ℚ) : Option ℚ :=
  if b = 0 then none else some (a / b)

/-- `std::max(0.0f, x)`: comparisons against NaN are false, so
`max(0, NaN)` returns the first argument `0`. -/
def floatMax0 : Option ℚ → ℚ
  | none => 0
  | some v => max 0 v

/-- `ThreatBasedPrioritizer::calculate_priority`, additionally reporting
whether the heading branch executed its division with a zero divisor
(the Boolean flag).  Accumulation order and guards follow the source:
the heading block is guarded only by `range > 0`, not by the velocity
norm. -/
def ThreatBasedPrioritizer.calculate_priority_checked (ops : MathOps)
    (params : ThreatParameters) (t : Target) : ℚ × Bool :=
  let range := ops.sqrt (t.x * t.x + t.y * t.y + t.z * t.z)
  let range_score := if 0 < range then ops.exp (-range / 100) else 1
  let priority := params.range_weight * range_score
  let speed := ops.sqrt (t.vx * t.vx + t.vy * t.vy + t.vz * t.vz)
  let velocity_score := min 1 (speed / 50)
  let priority := priority + params.velocity_weight * velocity_score
  let priority := priority + params.confidence_weight * t.confidence
  if 0 < range then
    let approach_factor :=
      fdiv (-(t.vx * t.x + t.vy * t.y + t.vz * t.z)) (range * speed)
    let heading_score := floatMax0 approach_factor
    (clampQ (priority + params.heading_weight * heading_score) 0 1,
     decide (range * speed = 0))
  else
    (clampQ priority 0 1, false)

def ThreatBasedPrioritizer.calculate_priority (ops : MathOps)
    (params : ThreatParameters) (t : Target) : ℚ :=
  (ThreatBasedPrioritizer.calculate_priority_checked ops params t).1

def ThreatBasedPrioritizer.prioritize_targets (ops : MathOps)
    (params : ThreatParameters) (l : List Target) : List Target :=
  DpAero.prioritize_targets
    (ThreatBasedPrioritizer.calculate_priority ops params) l

def ThreatBasedPrioritizer.select_highest_priority_target (ops : MathOps)
    (params : ThreatParameters) (l : List Target) : Option Target :=
  DpAero.select_highest_priority_target
    (ThreatBasedPrioritizer.calculate_priority ops params) l

/-! ## Reference algorithm: `TargetTrackingAlgorithm`
(`include/algorithms/target_tracking_algorithm.h`)

The embedding covers `initialize`, `process_l1_message` with the radar
payload case, `handle_trigger`, and the state machine built by
`setup_state_machine`.  Following §9 of the design notes, the
dynamic-typed `algorithm_data` slots the algorithm uses are rendered as
typed record fields of `TTData` (keys `"targets"`, `"detection_count"`,
`"default_device_id"`, `"scanning"`, `"acquisition_start"`,
`"lost_start"`), together with the `AlgorithmContext` fields the
algorithm touches.  The `on_update` hooks registered by
`setup_state_machine` are dispatched only from `update`, which is outside
this embedding's scope; they are recursive through `handle_trigger` and
are kept as `none` here — no embedded code path reads them.
`process_capability_advertisement` only logs, so the capability payload
is not modelled. -/

/-- One entry of `RadarData::detections`. -/
structure RadarDetection where
  range : ℚ
  azimuth : ℚ
  elevation : ℚ
  rcs : ℚ
  deriving DecidableEq, Repr

/-- The slice of `messages::L1ToL2Message` the algorithm reads: the
sender id and, when the payload is radar sensor data, its detections. -/
structure L1Msg where
  sender_id : String
  radar : Option (List RadarDetection)
  deriving DecidableEq, Repr

/-- The outbound messages the algorithm can append (POINT_GIMBAL to a
device, a fusion result, the shutdown system command). -/
inductive OutMsg where
  | gimbal (target_node : String) (theta phi : ℚ)
  | fusionResult (confidence : ℚ) (result_data : String)
  | shutdownCmd
  deriving DecidableEq, Repr

/-- Typed rendering of the context state used by the tracking
algorithm. -/
structure TTData where
  targets : List (String × Target)
  detection_count : Int
  default_device_id : Option String
  scanning : Option Bool
  acquisition_start : Option ℚ
  lost_start : Option ℚ
  latest_l1_messages : List (String × L1Msg)
  message_history : List (String × List L1Msg)
  pending_outputs : List OutMsg

/-- `send_gimbal_command_for_target`: POINT_GIMBAL to `coherent_001`
with `theta = atan2(y, x)`, `phi = asin(z / range)`. -/
def send_gimbal_command_for_target (ops : MathOps) (t : Target)
    (ctx : SMCtx TTData) : SMCtx TTData :=
  let range := ops.sqrt (t.x * t.x + t.y * t.y + t.z * t.z)
  let theta := ops.atan2 t.y t.x
  let phi := ops.asin (t.z / range)
  { ctx with data := { ctx.data with pending_outputs :=
      ctx.data.pending_outputs ++ [OutMsg.gimbal "coherent_001" theta phi] } }

/-- `send_gimbal_commands`: gimbal command for the first
strictly-highest-confidence target, if any. -/
def send_gimbal_commands (ops : MathOps) (ctx : SMCtx TTData) :
    SMCtx TTData :=
  let best := ctx.data.targets.foldl
    (fun acc p =>
      match acc with
      | none => some p.2
      | some b => if b.confidence < p.2.confidence then some p.2 else some b)
    none
  match best with
  | some t => send_gimbal_command_for_target ops t ctx
  | none => ctx

/-- `setup_state_machine`: the four states with their entry hooks and
the ten transitions in registration order. -/
def ttStateMachine (ops : MathOps) (now : ℚ) : StateManager TTData :=
  { states :=
      [("IDLE",
        { name := "IDLE"
          on_enter := some (fun ctx =>
            { ctx with data := { ctx.data with scanning := some true } }) }),
       ("ACQUIRING",
        { name := "ACQUIRING"
          on_enter := some (fun ctx =>
            { ctx with data :=
                { ctx.data with acquisition_start := some now } }) }),
       ("TRACKING",
        { name := "TRACKING"
          on_enter := some (fun ctx => send_gimbal_commands ops ctx) }),
       ("LOST",
        { name := "LOST"
          on_enter := some (fun ctx =>
            { ctx with data := { ctx.data with lost_start := some now } }) })]
    transitions :=
      [{ from_state := "IDLE", to_state := "ACQUIRING", trigger := "detection" },
       { from_state := "ACQUIRING", to_state := "TRACKING",
         trigger := "confirmed" },
       { from_state := "ACQUIRING", to_state := "IDLE",
         trigger := "false_positive" },
       { from_state := "TRACKING", to_state := "LOST", trigger := "lost" },
       { from_state := "LOST", to_state := "TRACKING",
         trigger := "reacquired" },
       { from_state := "LOST", to_state := "IDLE", trigger := "timeout" },
       { from_state := "IDLE", to_state := "IDLE", trigger := "reset" },
       { from_state := "ACQUIRING", to_state := "IDLE", trigger := "reset" },
       { from_state := "TRACKING", to_state := "IDLE", trigger := "reset" },
       { from_state := "LOST", to_state := "IDLE", trigger := "reset" }]
    initial_state := "IDLE" }

/-- `handle_node_timeout`: decay confidence by ×0.8 and drop the sensor
count for every target the timed-out node contributed to. -/
def handle_node_timeout (ctx : SMCtx TTData) (node_id : String) :
    SMCtx TTData :=
  let targets := ctx.data.targets.map (fun p =>
    if hasKey p.2.sensor_detections node_id then
      (p.1, { p.2 with
        confidence := p.2.confidence * (4/5)
        sensor_detections := aerase p.2.sensor_detections node_id })
    else p)
  { ctx with data := { ctx.data with targets := targets } }

/-- `TargetTrackingAlgorithm::handle_trigger`. -/
def TargetTrackingAlgorithm.handle_trigger (ops : MathOps) (now : ℚ)
    (ctx : SMCtx TTData) (trigger_name : String)
    (trigger_data : Option String) : SMCtx TTData :=
  if trigger_name = "reset" then
    let ctx := { ctx with data :=
      { ctx.data with targets := [], detection_count := 0 } }
    ((ttStateMachine ops now).try_transition ctx "reset").2
  else if trigger_name = "node_timeout" then
    match trigger_data with
    | some node_id => handle_node_timeout ctx node_id
    | none => ctx
  else if trigger_name = "target_detected" then
    ((ttStateMachine ops now).try_transition ctx "detection").2
  else if trigger_name = "target_lost" then
    ((ttStateMachine ops now).try_transition ctx "lost").2
  else
    ((ttStateMachine ops now).try_transition ctx trigger_name).2

/-- `find_closest_target`: scan all targets keeping the strictly
closest one within the 5 m default bound; `""` when none qualifies. -/
def find_closest_target (ops : MathOps) (targets : List (String × Target))
    (x y z : ℚ) : String :=
  (targets.foldl
    (fun acc p =>
      let dx := p.2.x - x
      let dy := p.2.y - y
      let dz := p.2.z - z
      let distance := ops.sqrt (dx * dx + dy * dy + dz * dz)
      if distance < acc.2 then (p.1, distance) else acc)
    ("", 5)).1

/-- `update_target_position`: position smoothing with `α =
position_noise = 0.1` (the measurement contributes 10%), velocity
blending with `velocity_alpha = 0.8` computed from the already-smoothed
position (both quirks preserved from the source), confidence bump capped
at 1, detection-count increment. -/
def update_target_position (t : Target) (x y z boost : ℚ)
    (sensor_id : String) (now : ℚ) : Target :=
  let alpha : ℚ := 1/10
  let t := { t with
    x := t.x * (1 - alpha) + x * alpha
    y := t.y * (1 - alpha) + y * alpha
    z := t.z * (1 - alpha) + z * alpha }
  let t :=
    match t.last_update with
    | some lu =>
        let dt := now - lu
        if 0 < dt then
          let new_vx := (x - t.x) / dt
          let new_vy := (y - t.y) / dt
          let new_vz := (z - t.z) / dt
          { t with
            vx := t.vx * (4/5) + new_vx * (1/5)
            vy := t.vy * (4/5) + new_vy * (1/5)
            vz := t.vz * (4/5) + new_vz * (1/5) }
        else t
    | none => t
  { t with
    confidence := min 1 (t.confidence + boost)
    last_update := some now
    sensor_detections := aset t.sensor_detections sensor_id
      ((alookup t.sensor_detections sensor_id).getD 0 + 1) }

/-- `process_radar_detections`: filter by `rcs > 0.1`, convert polar to
Cartesian, associate to the closest target within 5 m or create a new
`target_<index>` (creating and assigning a HIGH-priority TRACK_TARGET
task to the default device), update the target, write the map back, and
— when any target exists — call `handle_trigger("target_detected")`,
which fires the `detection` transition immediately. -/
def process_radar_detections (ops : MathOps) (now : ℚ)
    (tm : TaskManager (SMCtx TTData)) (ctx : SMCtx TTData)
    (node_id : String) (dets : List RadarDetection) :
    TaskManager (SMCtx TTData) × SMCtx TTData :=
  let st := dets.foldl
    (fun (acc : List (String × Target) × TaskManager (SMCtx TTData)) det =>
      let targets := acc.1
      let tmgr := acc.2
      if 1/10 < det.rcs then
        let x := det.range * ops.cos det.azimuth * ops.cos det.elevation
        let y := det.range * ops.sin det.azimuth * ops.cos det.elevation
        let z := det.range * ops.sin det.elevation
        let found := find_closest_target ops targets x y z
        let created :=
          if found = "" then
            let tid := "target_" ++ toString targets.length
            let targets := aset targets tid { target_id := tid }
            let tmgr :=
              match ctx.data.default_device_id with
              | some dev =>
                  let c := tmgr.create_task tid .TRACK_TARGET .HIGH now
                  (c.2.assign_task_to_device c.1 dev now).2
              | none => tmgr
            (tid, targets, tmgr)
          else (found, targets, tmgr)
        let tid := created.1
        let targets := created.2.1
        let tmgr := created.2.2
        let targets := aset targets tid
          (update_target_position
            ((alookup targets tid).getD { target_id := "" })
            x y z (4/5) node_id now)
        (targets, tmgr)
      else acc)
    (ctx.data.targets, tm)
  let ctx := { ctx with data := { ctx.data with targets := st.1 } }
  if st.1 = [] then (st.2, ctx)
  else (st.2, TargetTrackingAlgorithm.handle_trigger ops now ctx
    "target_detected" none)

/-- `TargetTrackingAlgorithm::process_l1_message`: store the message in
`latest_l1_messages` and `message_history` (dropping the oldest 50
entries once a node's history exceeds 100), then dispatch the radar
payload. -/
def TargetTrackingAlgorithm.process_l1_message (ops : MathOps) (now : ℚ)
    (tm : TaskManager (SMCtx TTData)) (ctx : SMCtx TTData) (msg : L1Msg) :
    TaskManager (SMCtx TTData) × SMCtx TTData :=
  let node_id := msg.sender_id
  let hist := ((alookup ctx.data.message_history node_id).getD []) ++ [msg]
  let hist := if 100 < hist.length then hist.drop 50 else hist
  let ctx := { ctx with data := { ctx.data with
    latest_l1_messages := aset ctx.data.latest_l1_messages node_id msg
    message_history := aset ctx.data.message_history node_id hist } }
  match msg.radar with
  | some dets => process_radar_detections ops now tm ctx node_id dets
  | none => (tm, ctx)

/-- `TargetTrackingAlgorithm::initialize`: build the state machine, set
the context's state to the initial IDLE state, seed the typed slots,
register the default device's capabilities, and run IDLE's `on_enter`. -/
def TargetTrackingAlgorithm.initialize_algorithm (ops : MathOps) (now : ℚ) :
    TaskManager (SMCtx TTData) × SMCtx TTData :=
  let sm := ttStateMachine ops now
  let ctx : SMCtx TTData :=
    { current_state_name := sm.initial_state
      current_state :=
        (sm.get_state sm.initial_state).map (fun _ => sm.initial_state)
      data :=
        { targets := [], detection_count := 0
          default_device_id := some "default_device"
          scanning := none, acquisition_start := none, lost_start := none
          latest_l1_messages := [], message_history := []
          pending_outputs := [] } }
  let tm := (TaskManager.init (SMCtx TTData) now).register_device_capabilities
    "default_device" ["radar", "lidar", "camera", "gimbal_control"]
  (tm, applyOptHook ((sm.curState ctx).bind SMState.on_enter) ctx)

/-- The S1 scenario message: one radar detection `{range = 50, azimuth =
0, elevation = 0, rcs = 1.0}` from `radar_node`. -/
def scenarioRadarMsg : L1Msg :=
  { sender_id := "radar_node"
    radar := some [{ range := 50, azimuth := 0, elevation := 0, rcs := 1 }] }

/-- A concrete float-library interpretation for the S1 scenario.  The
only library calls the scenario reaches are `cos 0` and `sin 0`, where
these stubs agree exactly with IEEE floats. -/
def scenarioOps : MathOps :=
  { cos := fun _ => 1, sin := fun _ => 0, sqrt := fun _ => 0
    exp := fun _ => 1, atan2 := fun _ _ => 0, asin := fun _ => 0 }

/-! # Theorems -/
theorem alookup_aset {α : Type} (l : List (String × α)) (k k' : String)
    (v : α) :
    alookup (aset l k v) k' =
      if k = k' then some v else alookup l k' := by
  induction l with
  | nil => by_cases hkk : k = k' <;> simp [aset, alookup, hkk]
  | cons p rest ih =>
    obtain ⟨a, b⟩ := p
    by_cases ha : a = k
    · subst ha
      by_cases hkk : a = k' <;> simp [aset, alookup, hkk]
    · by_cases hak : a = k'
      · subst hak
        simp [aset, alookup, ha, show ¬ a = k from ha,
          show ¬ k = a from fun h => ha h.symm]
      · simp [aset, alookup, ha, hak, ih]

theorem alookup_aset_self {α : Type} (l : List (String × α)) (k : String)
    (v : α) : alookup (aset l k v) k = some v := by
  rw [alookup_aset]; simp

theorem alookup_aset_other {α : Type} (l : List (String × α)) (k k' : String)
    (v : α) (hne : k ≠ k') : alookup (aset l k v) k' = alookup l k' := by
  rw [alookup_aset]; simp [hne]

theorem hasKey_aset_self {α : Type} (l : List (String × α)) (k : String)
    (v : α) : hasKey (aset l k v) k = true := by
  simp [hasKey, alookup_aset_self]

/-- Lookup after erasing a key. -/
theorem alookup_aerase {α : Type} (l : List (String × α)) (k k' : String) :
    alookup (aerase l k) k' =
      if k' = k then none else alookup l k' := by
  induction l with
  | nil => by_cases hk : k' = k <;> simp [aerase, alookup, hk]
  | cons p rest ih =>
    obtain ⟨a, b⟩ := p
    unfold aerase at ih ⊢
    simp only [decide_not] at ih
    by_cases ha : a = k
    · subst ha
      by_cases hk : k' = a
      · subst hk
        simpa [List.filter_cons] using ih
      · simp [List.filter_cons, alookup, hk, ih,
          show ¬ a = k' from fun h => hk h.symm]
    · by_cases hak : a = k'
      · subst hak
        simp [List.filter_cons, alookup, ha,
          show ¬ a = k from ha, show ¬ k = a from fun h => ha h.symm]
      · simp [List.filter_cons, alookup, ha, hak, ih]

/-- Lookup after filtering out a set of keys. -/
theorem alookup_filter_not_mem {α : Type} (l : List (String × α))
    (removed : List String) (k : String) :
    alookup (l.filter (fun p => ¬ p.1 ∈ removed)) k =
      if k ∈ removed then none else alookup l k := by
  induction l with
  | nil => by_cases hk : k ∈ removed <;> simp [alookup, hk]
  | cons p rest ih =>
    obtain ⟨a, b⟩ := p
    simp only [decide_not] at ih
    by_cases ha : a ∈ removed
    · by_cases hak : a = k
      · subst hak
        simp [List.filter_cons, ha, ih]
      · by_cases hk : k ∈ removed <;>
          simp [List.filter_cons, ha, hk, alookup, hak, ih]
    · by_cases hak : a = k
      · subst hak
        simp [List.filter_cons, ha, alookup]
      · simp [List.filter_cons, ha, hak, alookup, ih]

/-- A successful lookup puts the key among the keys of the list. -/
theorem mem_keys_of_alookup {α : Type} (l : List (String × α)) (k : String)
    (v : α) (h : alookup l k = some v) : k ∈ l.map Prod.fst := by
  induction l with
  | nil => simp [alookup] at h
  | cons p rest ih =>
    by_cases hk : p.1 = k
    · simp [hk]
    · have : alookup rest k = some v := by simpa [alookup, hk] using h
      simpa using Or.inr (ih this)

/-- If the first binding of `k` survives a filter, lookup in the filtered
list still returns it. -/
theorem alookup_filter_of_pred {α : Type} (l : List (String × α))
    (k : String) (v : α) (P : String × α → Bool)
    (hl : alookup l k = some v) (hP : P (k, v) = true) :
    alookup (l.filter P) k = some v := by
  induction l with
  | nil => simp [alookup] at hl
  | cons p rest ih =>
    by_cases hk : p.1 = k
    · have hv : p.2 = v := by
        have := hl
        simp [alookup, hk] at this
        exact this
      have hp : p = (k, v) := by
        cases p with
        | mk a b => simp_all
      subst hp
      simp [List.filter, hP, alookup]
    · have hl' : alookup rest k = some v := by
        simpa [alookup, hk] using hl
      by_cases hPp : P p = true
      · simp only [List.filter, hPp]
        simpa [alookup, hk] using ih hl'
      · simp only [List.filter, hPp]
        exact ih hl'

/-- If the first binding of `k` fails a filter, `k` shows up among the keys
of the complement filter. -/
theorem mem_keys_filter_not {α : Type} (l : List (String × α)) (k : String)
    (v : α) (P : String × α → Bool)
    (hl : alookup l k = some v) (hP : P (k, v) = false) :
    k ∈ (l.filter (fun p => ¬ P p)).map Prod.fst := by
  induction l with
  | nil => simp [alookup] at hl
  | cons p rest ih =>
    by_cases hk : p.1 = k
    · have hv : p.2 = v := by
        have := hl
        simp [alookup, hk] at this
        exact this
      have hp : p = (k, v) := by
        cases p with
        | mk a b => simp_all
      subst hp
      simp [List.filter, hP]
    · have hl' : alookup rest k = some v := by
        simpa [alookup, hk] using hl
      by_cases hPp : P p = true
      · simp only [List.filter]
        rw [show (decide ¬ P p = true) = false by simp [hPp]]
        exact ih hl'
      · simp only [List.filter]
        rw [show (decide ¬ P p = true) = true by simp [hPp]]
        simpa using Or.inr (ih hl')

theorem hasKey_aset_mono {α : Type} (l : List (String × α)) (k id : String)
    (v : α) (h : hasKey l id = true) : hasKey (aset l k v) id = true := by
  by_cases hk : k = id
  · subst hk
    exact hasKey_aset_self l k v
  · rw [hasKey, alookup_aset_other l k id v hk]
    exact h

theorem hasKey_aset_elim {α : Type} (l : List (String × α)) (k id : String)
    (v : α) (h : hasKey (aset l k v) id = true) :
    k = id ∨ hasKey l id = true := by
  by_cases hk : k = id
  · exact Or.inl hk
  · right
    rwa [hasKey, alookup_aset_other l k id v hk] at h

theorem lastSeenCovers_applyRegOp (r : NodeRegistry) (op : RegOp)
    (h : lastSeenCovers r) : lastSeenCovers (applyRegOp r op) := by
  intro id
  cases op with
  | reg node now =>
    constructor
    · intro hn
      rcases hasKey_aset_elim _ _ _ _ hn with hk | hn'
      · subst hk
        exact hasKey_aset_self _ _ _
      · exact hasKey_aset_mono _ _ _ _ ((h id).1 hn')
    · intro hs
      exact hasKey_aset_mono _ _ _ _ ((h id).2 hs)
  | heartbeat nid now =>
    constructor
    · intro hn
      exact hasKey_aset_mono _ _ _ _ ((h id).1 hn)
    · intro hs
      exact hasKey_aset_mono _ _ _ _ ((h id).2 hs)
  | status nid st now =>
    constructor
    · intro hn
      exact hasKey_aset_mono _ _ _ _ ((h id).1 hn)
    · intro hs
      rcases hasKey_aset_elim _ _ _ _ hs with hk | hs'
      · subst hk
        exact hasKey_aset_self _ _ _
      · exact hasKey_aset_mono _ _ _ _ ((h id).2 hs')
  | remove nid =>
    constructor
    · intro hn
      simp only [applyRegOp, remove_node, hasKey] at hn ⊢
      rw [alookup_aerase] at hn ⊢
      by_cases hne : id = nid
      · simp [hne] at hn
      · rw [if_neg hne] at hn ⊢
        exact (h id).1 hn
    · intro hs
      simp only [applyRegOp, remove_node, hasKey] at hs ⊢
      rw [alookup_aerase] at hs ⊢
      by_cases hne : id = nid
      · simp [hne] at hs
      · rw [if_neg hne] at hs ⊢
        exact (h id).2 hs
  | sweep timeout now =>
    constructor
    · intro hn
      simp only [applyRegOp, check_and_remove_timed_out_nodes] at hn ⊢
      rw [hasKey, alookup_filter_not_mem] at hn
      by_cases hmem :
          id ∈ ((r.last_seen.filter
            (fun p => ¬ (now - p.2 < timeout))).map Prod.fst)
      · rw [if_pos hmem] at hn
        simp at hn
      · rw [if_neg hmem] at hn
        have hlast : hasKey r.last_seen id = true := (h id).1 hn
        rw [hasKey] at hlast
        obtain ⟨t, ht⟩ := Option.isSome_iff_exists.mp hlast
        have hkeep : (decide (now - t < timeout)) = true := by
          by_contra hcon
          refine hmem (mem_keys_filter_not r.last_seen id t _ ht ?_)
          simpa using hcon
        rw [hasKey,
          alookup_filter_of_pred r.last_seen id t _ ht hkeep]
        rfl
    · intro hs
      simp only [applyRegOp, check_and_remove_timed_out_nodes] at hs ⊢
      rw [hasKey, alookup_filter_not_mem] at hs
      by_cases hmem :
          id ∈ ((r.last_seen.filter
            (fun p => ¬ (now - p.2 < timeout))).map Prod.fst)
      · rw [if_pos hmem] at hs
        simp at hs
      · rw [if_neg hmem] at hs
        have hlast : hasKey r.last_seen id = true := (h id).2 hs
        rw [hasKey] at hlast
        obtain ⟨t, ht⟩ := Option.isSome_iff_exists.mp hlast
        have hkeep : (decide (now - t < timeout)) = true := by
          by_contra hcon
          refine hmem (mem_keys_filter_not r.last_seen id t _ ht ?_)
          simpa using hcon
        rw [hasKey,
          alookup_filter_of_pred r.last_seen id t _ ht hkeep]
        rfl

theorem lastSeenCovers_applyRegOps (ops : List RegOp) (r : NodeRegistry)
    (h : lastSeenCovers r) : lastSeenCovers (applyRegOps r ops) := by
  induction ops generalizing r with
  | nil => exact h
  | cons op rest ih =>
    exact ih (applyRegOp r op) (lastSeenCovers_applyRegOp r op h)

theorem lastSeenCovers_empty : lastSeenCovers NodeRegistry.empty := by
  intro id
  constructor <;> intro h <;> simp [hasKey, alookup, NodeRegistry.empty] at h

/-- C1 counterexample: a single `register_node` puts the id into the
identity and `last_seen` maps but not into the status map, so the
"in all three or in none" claim already fails after one operation. -/
theorem registry_consistency_fails_after_register :
    ¬ allThreeOrNone
        (applyRegOps NodeRegistry.empty [RegOp.reg ⟨"radar_001"⟩ 0])
        "radar_001" := by
  decide

/-- C1 (amended): after any operation sequence from the empty registry,
every id in the identity map has a `last_seen` record, and every id in
the status map has a `last_seen` record; the converse containments do not
hold (`update_node_heartbeat` and `update_node_status` create `last_seen`
entries without identity records). -/
theorem registry_last_seen_covers (ops : List RegOp) (id : String) :
    (hasKey (applyRegOps NodeRegistry.empty ops).nodes id = true →
      hasKey (applyRegOps NodeRegistry.empty ops).last_seen id = true) ∧
    (hasKey (applyRegOps NodeRegistry.empty ops).node_status id = true →
      hasKey (applyRegOps NodeRegistry.empty ops).last_seen id = true) :=
  lastSeenCovers_applyRegOps ops NodeRegistry.empty lastSeenCovers_empty id

/-- Witness for the amended C1 theorem at a concrete operation sequence. -/
theorem registry_last_seen_covers_witness :
    hasKey (applyRegOps NodeRegistry.empty
      [RegOp.reg ⟨"radar_001"⟩ 0, RegOp.status "lidar_001" ⟨1⟩ 2]).last_seen
      "radar_001" = true :=
  (registry_last_seen_covers
    [RegOp.reg ⟨"radar_001"⟩ 0, RegOp.status "lidar_001" ⟨1⟩ 2]
    "radar_001").1 (by decide)

/-- C10: `update_node_heartbeat` on a never-registered id creates a
`last_seen` record for it.  The id is then listed by `get_active_nodes`
while `now - t < timeout` holds and returned by
`check_and_remove_timed_out_nodes` once `now - t ≥ timeout`, yet
`get_node` keeps returning `none` because the identity map was never
written. -/
theorem heartbeat_creates_phantom_liveness (r : NodeRegistry) (id : String)
    (t : ℚ) (hno : alookup r.nodes id = none) :
    alookup (update_node_heartbeat r id t).last_seen id = some t ∧
    get_node (update_node_heartbeat r id t) id = none ∧
    (∀ timeout now : ℚ, now - t < timeout →
      id ∈ get_active_nodes (update_node_heartbeat r id t) timeout now) ∧
    (∀ timeout now : ℚ, ¬ (now - t < timeout) →
      id ∈ (check_and_remove_timed_out_nodes
              (update_node_heartbeat r id t) timeout now).1) := by
  refine ⟨alookup_aset_self _ _ _, ?_, ?_, ?_⟩
  · simpa [get_node, update_node_heartbeat] using hno
  · intro timeout now hlt
    have hl : alookup (update_node_heartbeat r id t).last_seen id = some t :=
      alookup_aset_self _ _ _
    unfold get_active_nodes
    exact mem_keys_of_alookup _ id t
      (alookup_filter_of_pred (update_node_heartbeat r id t).last_seen id t
        (fun p => decide (now - p.2 < timeout)) hl (by simpa using hlt))
  · intro timeout now hge
    have hl : alookup (update_node_heartbeat r id t).last_seen id = some t :=
      alookup_aset_self _ _ _
    unfold check_and_remove_timed_out_nodes
    simpa using mem_keys_filter_not
      (update_node_heartbeat r id t).last_seen id t
      (fun p => decide (now - p.2 < timeout)) hl (by simpa using hge)

/-- Witness for C10 at a concrete registry. -/
theorem heartbeat_creates_phantom_liveness_witness :
    alookup (update_node_heartbeat NodeRegistry.empty "ghost" 7).last_seen
      "ghost" = some 7 ∧
    get_node (update_node_heartbeat NodeRegistry.empty "ghost" 7) "ghost"
      = none ∧
    "ghost" ∈ get_active_nodes
      (update_node_heartbeat NodeRegistry.empty "ghost" 7) 30 10 ∧
    "ghost" ∈ (check_and_remove_timed_out_nodes
      (update_node_heartbeat NodeRegistry.empty "ghost" 7) 30 40).1 := by
  obtain ⟨h1, h2, h3, h4⟩ :=
    heartbeat_creates_phantom_liveness NodeRegistry.empty "ghost" 7 (by decide)
  exact ⟨h1, h2, h3 30 10 (by norm_num), h4 30 40 (by norm_num)⟩

/-- C3: the bounded drop-oldest FIFO.  (i) Enqueueing onto a full queue
pops the front and pushes at the back; (ii) for any positive bound the
queue size stays at most the bound; (iii) with `message_queue_size = 3`,
enqueueing `m1..m5` before any worker runs leaves `[m3, m4, m5]`, and a
single worker then processes exactly `m3, m4, m5` in that order, never
`m1` or `m2`. -/
theorem queue_drop_oldest_fifo :
    (∀ (M : Type) (cap : Nat) (q : List M) (m : M), q.length = cap →
      enqueue_message cap q m = q.tail ++ [m]) ∧
    (∀ (M : Type) (cap : Nat) (q : List M) (m : M),
      1 ≤ cap → q.length ≤ cap → (enqueue_message cap q m).length ≤ cap) ∧
    (List.foldl (enqueue_message 3) ([] : List String)
        ["m1", "m2", "m3", "m4", "m5"] = ["m3", "m4", "m5"] ∧
      worker_process_order
        (List.foldl (enqueue_message 3) ([] : List String)
          ["m1", "m2", "m3", "m4", "m5"]) = ["m3", "m4", "m5"] ∧
      "m1" ∉ worker_process_order
        (List.foldl (enqueue_message 3) ([] : List String)
          ["m1", "m2", "m3", "m4", "m5"]) ∧
      "m2" ∉ worker_process_order
        (List.foldl (enqueue_message 3) ([] : List String)
          ["m1", "m2", "m3", "m4", "m5"])) := by
  refine ⟨?_, ?_, by decide, by decide, by decide, by decide⟩
  · intro M cap q m hlen
    unfold enqueue_message
    rw [if_pos (le_of_eq hlen.symm)]
  · intro M cap q m hcap hlen
    unfold enqueue_message
    by_cases hfull : cap ≤ q.length
    · rw [if_pos hfull]
      rcases q with _ | ⟨x, rest⟩
      · simpa using hcap
      · simp only [List.length_cons] at hlen
        simp only [List.tail_cons, List.length_append, List.length_cons,
          List.length_nil]
        omega
    · rw [if_neg hfull]
      simp only [List.length_append, List.length_cons, List.length_nil]
      omega

/-- Witness for C3 at a concrete full queue. -/
theorem queue_drop_oldest_fifo_witness :
    enqueue_message 2 ["a", "b"] "c" = ["b", "c"] ∧
    (enqueue_message 2 ["a", "b"] "c").length ≤ 2 := by
  constructor
  · have h := queue_drop_oldest_fifo.1 String 2 ["a", "b"] "c" (by decide)
    simpa using h
  · exact queue_drop_oldest_fifo.2.1 String 2 ["a", "b"] "c"
      (by decide) (by decide)

theorem try_transition_go_eq_find {D : Type} (sm : StateManager D)
    (ctx : SMCtx D) (trigger : String) (l : List (SMTransition D)) :
    StateManager.try_transition.go sm ctx trigger l =
      match l.find? (fun tr => transitionEnabled tr ctx trigger) with
      | some tr => (true, fireTransition sm tr ctx)
      | none => (false, ctx) := by
  induction l with
  | nil => rfl
  | cons tr rest ih =>
    by_cases h : transitionEnabled tr ctx trigger = true
    · simp [StateManager.try_transition.go, List.find?_cons, h]
    · simp only [StateManager.try_transition.go, List.find?_cons]
      rw [if_neg h, ih]
      rw [show (transitionEnabled tr ctx trigger) = false by
        simpa using h]

theorem task_try_transition_go_eq_find {C : Type} (m : TaskStateMachine C)
    (ctx : C) (task_id trigger : String) (l : List (TaskSMTransition C)) :
    TaskStateMachine.try_transition.go m ctx task_id trigger l =
      match l.find?
          (fun tr => taskTransitionEnabled tr m.current_state ctx task_id
            trigger) with
      | some tr => (true, m.fire tr ctx task_id)
      | none => (false, m, ctx) := by
  induction l with
  | nil => rfl
  | cons tr rest ih =>
    by_cases h :
        taskTransitionEnabled tr m.current_state ctx task_id trigger = true
    · simp [TaskStateMachine.try_transition.go, List.find?_cons, h]
    · simp only [TaskStateMachine.try_transition.go, List.find?_cons]
      rw [if_neg h, ih]
      rw [show (taskTransitionEnabled tr m.current_state ctx task_id trigger)
        = false by simpa using h]

/-- C2: both `try_transition` loops (algorithm-level and per-task) fire
exactly the first transition, in registration order, whose source state
is the current state, whose trigger matches and whose guard (trivially
true when absent) holds on the unmodified context; the effect order is
current state's `on_exit`, then the transition action, then the state
assignment, then the new state's `on_enter` (all encoded in
`fireTransition` / `TaskStateMachine.fire`), and the call returns `true`;
when no transition matches it returns `false` and leaves the state and
context unchanged. -/
theorem try_transition_first_match :
    (∀ (D : Type) (sm : StateManager D) (ctx : SMCtx D) (trigger : String),
      sm.try_transition ctx trigger = sm.try_transition_spec ctx trigger) ∧
    (∀ (D : Type) (sm : StateManager D) (ctx : SMCtx D) (trigger : String),
      sm.transitions.find? (fun tr => transitionEnabled tr ctx trigger)
          = none →
        sm.try_transition ctx trigger = (false, ctx)) ∧
    (∀ (C : Type) (m : TaskStateMachine C) (ctx : C)
        (task_id trigger : String),
      m.try_transition ctx task_id trigger
        = m.try_transition_spec ctx task_id trigger) ∧
    (∀ (C : Type) (m : TaskStateMachine C) (ctx : C)
        (task_id trigger : String),
      m.transitions.find?
          (fun tr => taskTransitionEnabled tr m.current_state ctx task_id
            trigger) = none →
        m.try_transition ctx task_id trigger = (false, m, ctx)) := by
  refine ⟨?_, ?_, ?_, ?_⟩
  · intro D sm ctx trigger
    unfold StateManager.try_transition StateManager.try_transition_spec
    exact try_transition_go_eq_find sm ctx trigger sm.transitions
  · intro D sm ctx trigger hnone
    unfold StateManager.try_transition
    rw [try_transition_go_eq_find sm ctx trigger sm.transitions, hnone]
  · intro C m ctx task_id trigger
    unfold TaskStateMachine.try_transition TaskStateMachine.try_transition_spec
    exact task_try_transition_go_eq_find m ctx task_id trigger m.transitions
  · intro C m ctx task_id trigger hnone
    unfold TaskStateMachine.try_transition
    rw [task_try_transition_go_eq_find m ctx task_id trigger m.transitions,
      hnone]

/-- Witness for C2's conditional clauses at a concrete machine: a
two-transition machine where only the second transition matches the
trigger, and a no-match trigger that leaves everything unchanged. -/
theorem try_transition_first_match_witness :
    (StateManager.try_transition (D := Unit)
        { states := [("A", { name := "A" }), ("B", { name := "B" })]
          transitions :=
            [{ from_state := "A", to_state := "B", trigger := "go" },
             { from_state := "A", to_state := "A", trigger := "stay" }]
          initial_state := "A" }
        { current_state_name := "A", current_state := some "A", data := () }
        "missing"
      = (false,
          { current_state_name := "A", current_state := some "A",
            data := () })) ∧
    (TaskStateMachine.try_transition (C := Unit)
        { states := [("INITIALIZING", { name := "INITIALIZING" })]
          transitions :=
            [{ from_state := "INITIALIZING", to_state := "EXECUTING",
               trigger := "start" }]
          initial_state := "INITIALIZING"
          current_state := "INITIALIZING" }
        () "task_1" "missing"
      = (false,
          { states := [("INITIALIZING", { name := "INITIALIZING" })]
            transitions :=
              [{ from_state := "INITIALIZING", to_state := "EXECUTING",
                 trigger := "start" }]
            initial_state := "INITIALIZING"
            current_state := "INITIALIZING" }, ())) := by
  constructor
  · exact try_transition_first_match.2.1 Unit _ _ "missing" (by rfl)
  · exact try_transition_first_match.2.2.2 Unit _ () "task_1" "missing"
      (by rfl)

theorem any_cast_mismatch (τ : TypeTag) (v : DynVal) (h : v.tag ≠ τ) :
    any_cast τ v = .error () := by
  cases τ <;> cases v <;> first
    | rfl
    | exact absurd rfl h

/-- C8: retrieving from the Algorithm Context user store
(`AlgorithmContext::get_data`) or from a task's parameter map
(`Task::get_parameter`) returns `nullopt` both for a key that was never
set and for a stored value of a different type than requested; the
`bad_any_cast` is caught inside the getter, so no exception reaches the
caller (the functions are total and `Option`-valued). -/
theorem get_absent_on_type_mismatch :
    (∀ (store : List (String × DynVal)) (τ : TypeTag) (key : String),
      alookup store key = none → context_get_data store τ key = none) ∧
    (∀ (store : List (String × DynVal)) (τ : TypeTag) (key : String)
        (v : DynVal), alookup store key = some v → v.tag ≠ τ →
      context_get_data store τ key = none) ∧
    (∀ (C : Type) (t : Task C) (τ : TypeTag) (key : String),
      alookup t.parameters key = none → t.get_parameter τ key = none) ∧
    (∀ (C : Type) (t : Task C) (τ : TypeTag) (key : String) (v : DynVal),
      alookup t.parameters key = some v → v.tag ≠ τ →
      t.get_parameter τ key = none) := by
  refine ⟨?_, ?_, ?_, ?_⟩
  · intro store τ key h
    unfold context_get_data
    rw [h]
  · intro store τ key v h hv
    unfold context_get_data
    rw [h]
    show (match any_cast τ v with
          | .ok x => some x
          | .error _ => none) = none
    rw [any_cast_mismatch τ v hv]
  · intro C t τ key h
    unfold Task.get_parameter
    rw [h]
  · intro C t τ key v h hv
    unfold Task.get_parameter
    rw [h]
    show (match any_cast τ v with
          | .ok x => some x
          | .error _ => none) = none
    rw [any_cast_mismatch τ v hv]

/-- Witness for C8: an `Int` stored under `"scan_frequency"` read back as
a `String` gives `none`, both in the context store and in a task's
parameter map, and a never-set key gives `none`. -/
theorem get_absent_on_type_mismatch_witness :
    context_get_data [("scan_frequency", DynVal.vInt 2)] TypeTag.tString
      "scan_frequency" = none ∧
    context_get_data [("scan_frequency", DynVal.vInt 2)] TypeTag.tInt
      "missing" = none ∧
    Task.get_parameter
      { Task.create Unit "task_1" "target_001" TaskType.SCAN_AREA
          TaskPriority.NORMAL 0 with
        parameters := [("scan_frequency", DynVal.vInt 2)] }
      TypeTag.tString "scan_frequency" = none := by
  refine ⟨?_, ?_, ?_⟩
  · exact get_absent_on_type_mismatch.2.1
      [("scan_frequency", DynVal.vInt 2)] TypeTag.tString "scan_frequency"
      (DynVal.vInt 2) (by decide) (by decide)
  · exact get_absent_on_type_mismatch.1
      [("scan_frequency", DynVal.vInt 2)] TypeTag.tInt "missing" (by decide)
  · exact get_absent_on_type_mismatch.2.2.2 Unit
      { Task.create Unit "task_1" "target_001" TaskType.SCAN_AREA
          TaskPriority.NORMAL 0 with
        parameters := [("scan_frequency", DynVal.vInt 2)] }
      TypeTag.tString "scan_frequency" (DynVal.vInt 2) (by rfl) (by decide)

/-- C5 counterexample: a COMPLETED task finished at time 0; the tick runs
at `now = 4000` s, which is more than 5 minutes after the last cleanup
(at 0) and more than 1 hour after the completion.  The claim says the
task is removed, but `update_all_tasks` keeps it and only resets the
cleanup timer, because the `cleanup_completed_tasks()` call in the tick
is commented out; the never-invoked `cleanup_completed_tasks` itself
would have removed it. -/
theorem tick_does_not_cleanup :
    hasKey (TaskManager.update_all_tasks ()
      { tasks :=
          [("task_1",
            { task_id := "task_1", target_id := "tgt"
              type := .TRACK_TARGET, priority := .HIGH
              status := .COMPLETED, created_time := 0
              completed_time := some 0
              state_machine := defaultTaskStateMachine Unit })]
        target_to_tasks := [("tgt", ["task_1"])]
        device_to_tasks := []
        target_primary_device := []
        device_capabilities := []
        next_task_id := 2
        last_cleanup_time := 0 } 4000).2.tasks "task_1" = true ∧
    (TaskManager.update_all_tasks ()
      { tasks :=
          [("task_1",
            { task_id := "task_1", target_id := "tgt"
              type := .TRACK_TARGET, priority := .HIGH
              status := .COMPLETED, created_time := 0
              completed_time := some 0
              state_machine := defaultTaskStateMachine Unit })]
        target_to_tasks := [("tgt", ["task_1"])]
        device_to_tasks := []
        target_primary_device := []
        device_capabilities := []
        next_task_id := 2
        last_cleanup_time := 0 } 4000).2.last_cleanup_time = 4000 ∧
    hasKey (TaskManager.cleanup_completed_tasks
      { tasks :=
          [("task_1",
            { task_id := "task_1", target_id := "tgt"
              type := .TRACK_TARGET, priority := .HIGH
              status := .COMPLETED, created_time := 0
              completed_time := some 0
              state_machine := defaultTaskStateMachine Unit })]
        target_to_tasks := [("tgt", ["task_1"])]
        device_to_tasks := []
        target_primary_device := []
        device_capabilities := []
        next_task_id := 2
        last_cleanup_time := 0 } 4000).tasks "task_1" = false := by
  refine ⟨?_, ?_, ?_⟩ <;>
    norm_num [TaskManager.update_all_tasks, TaskManager.cleanup_completed_tasks,
      TaskManager.remove_task, Task.is_active, Task.is_completed,
      Task.update_state_machine, TaskStateMachine.update, taskApplyHook,
      TaskStateMachine.get_state, defaultTaskStateMachine, hasKey, alookup,
      aerase, aset]

/-- C5 (amended): when the Task Manager's tick (`update_all_tasks`) runs
more than 5 minutes after the last cleanup it only resets the cleanup
timestamp; the task map is never changed by the tick (the per-task
state-machine `on_update` hooks of the default machine are empty, and the
`cleanup_completed_tasks()` call is commented out in the source), so no
terminal task is removed regardless of its age. -/
theorem tick_resets_timer_only (C : Type) (ctx : C) (tm : TaskManager C)
    (now : ℚ) :
    ((TaskManager.update_all_tasks ctx tm now).2.tasks = tm.tasks) ∧
    (300 < now - tm.last_cleanup_time →
      (TaskManager.update_all_tasks ctx tm now).2.last_cleanup_time = now) ∧
    (¬ 300 < now - tm.last_cleanup_time →
      (TaskManager.update_all_tasks ctx tm now).2 = tm) := by
  unfold TaskManager.update_all_tasks
  by_cases h : 300 < now - tm.last_cleanup_time
  · rw [if_pos h]
    exact ⟨rfl, fun _ => rfl, fun hc => absurd h hc⟩
  · rw [if_neg h]
    exact ⟨rfl, fun hc => absurd hc h, fun _ => rfl⟩

/-- Witness for C5's amended theorem at a concrete manager. -/
theorem tick_resets_timer_only_witness :
    (TaskManager.update_all_tasks () (TaskManager.init Unit 0)
      1000).2.last_cleanup_time = 1000 ∧
    (TaskManager.update_all_tasks () (TaskManager.init Unit 0)
      100).2 = TaskManager.init Unit 0 := by
  constructor
  · exact (tick_resets_timer_only Unit () (TaskManager.init Unit 0)
      1000).2.1 (by norm_num [TaskManager.init])
  · exact (tick_resets_timer_only Unit () (TaskManager.init Unit 0)
      100).2.2 (by norm_num [TaskManager.init])

/-- C6 counterexample: create a task, assign it to `d1`, then reassign to
`d2`.  The claim says the now-empty `by_device["d1"]` bucket is dropped;
the code's erase–remove leaves the key `"d1"` present with an empty
list. -/
theorem assign_keeps_empty_device_bucket :
    alookup
      (TaskManager.assign_task_to_device
        (TaskManager.assign_task_to_device
          ((TaskManager.init Unit 0).create_task "tgt" .TRACK_TARGET
            .HIGH 0).2 "task_1" "d1" 1).2
        "task_1" "d2" 2).2.device_to_tasks "d1"
      = some [] ∧
    hasKey
      (TaskManager.assign_task_to_device
        (TaskManager.assign_task_to_device
          ((TaskManager.init Unit 0).create_task "tgt" .TRACK_TARGET
            .HIGH 0).2 "task_1" "d1" 1).2
        "task_1" "d2" 2).2.device_to_tasks "d1"
      = true := by
  refine ⟨by decide, by decide⟩

/-- C6 (amended): `assign_task_to_device` returns `false` and changes
nothing when the task is unknown; otherwise it removes the task id from
the previously assigned device's bucket (keeping the bucket's key even
when the list becomes empty — it is NOT dropped), appends the id to the
new device's bucket, stores the device on the task (promoting a CREATED
task to ASSIGNED and stamping the assignment time, via `set_device_id`),
sets `primary_device[target_id] = device_id`, and returns `true`. -/
theorem assign_task_to_device_spec (C : Type) (tm : TaskManager C)
    (task_id device_id : String) (now : ℚ) :
    (alookup tm.tasks task_id = none →
      tm.assign_task_to_device task_id device_id now = (false, tm)) ∧
    (∀ task : Task C, alookup tm.tasks task_id = some task →
      (tm.assign_task_to_device task_id device_id now).1 = true ∧
      alookup (tm.assign_task_to_device task_id device_id now).2.tasks
          task_id = some (task.set_device_id device_id now) ∧
      task_id ∈ (alookup (tm.assign_task_to_device task_id device_id
          now).2.device_to_tasks device_id).getD [] ∧
      alookup (tm.assign_task_to_device task_id device_id
          now).2.target_primary_device task.target_id = some device_id) ∧
    (∀ task : Task C, alookup tm.tasks task_id = some task →
      task.device_id ≠ "" → task.device_id ≠ device_id →
      hasKey (tm.assign_task_to_device task_id device_id
          now).2.device_to_tasks task.device_id = true ∧
      task_id ∉ (alookup (tm.assign_task_to_device task_id device_id
          now).2.device_to_tasks task.device_id).getD []) ∧
    (∀ task : Task C,
      (task.set_device_id device_id now).device_id = device_id ∧
      (task.status = .CREATED →
        (task.set_device_id device_id now).status = .ASSIGNED ∧
        (task.set_device_id device_id now).assigned_time = some now) ∧
      (task.status ≠ .CREATED →
        (task.set_device_id device_id now).status = task.status ∧
        (task.set_device_id device_id now).assigned_time
          = task.assigned_time)) := by
  refine ⟨?_, ?_, ?_, ?_⟩
  · intro h
    unfold TaskManager.assign_task_to_device
    rw [h]
  · intro task hfind
    unfold TaskManager.assign_task_to_device
    rw [hfind]
    refine ⟨rfl, ?_, ?_, ?_⟩
    · exact alookup_aset_self _ _ _
    · show task_id ∈ (alookup (bucketAppend _ device_id task_id)
        device_id).getD []
      unfold bucketAppend
      rw [alookup_aset_self]
      simp
    · exact alookup_aset_self _ _ _
  · intro task hfind hdev hne
    unfold TaskManager.assign_task_to_device
    rw [hfind]
    simp only
    rw [if_pos hdev]
    constructor
    · show hasKey (bucketAppend (bucketErase tm.device_to_tasks
        task.device_id task_id) device_id task_id) task.device_id = true
      unfold bucketAppend bucketErase hasKey
      rw [alookup_aset_other _ _ _ _ (Ne.symm hne), alookup_aset_self]
      rfl
    · show task_id ∉ (alookup (bucketAppend (bucketErase tm.device_to_tasks
        task.device_id task_id) device_id task_id) task.device_id).getD []
      unfold bucketAppend bucketErase
      rw [alookup_aset_other _ _ _ _ (Ne.symm hne), alookup_aset_self]
      simp
  · intro task
    unfold Task.set_device_id
    by_cases hc : task.status = TaskStatus.CREATED
    · rw [if_pos (by simpa using hc)]
      exact ⟨rfl, fun _ => ⟨rfl, rfl⟩, fun hnc => absurd hc hnc⟩
    · rw [if_neg (by simpa using hc)]
      exact ⟨rfl, fun h => absurd h hc, fun _ => ⟨rfl, rfl⟩⟩

/-- Witness for C6's amended theorem on the create → d1 → d2 scenario. -/
theorem assign_task_to_device_spec_witness :
    (TaskManager.assign_task_to_device
        ((TaskManager.init Unit 0).create_task "tgt" .TRACK_TARGET
          .HIGH 0).2 "bogus" "d1" 1
      = (false, ((TaskManager.init Unit 0).create_task "tgt" .TRACK_TARGET
          .HIGH 0).2)) ∧
    "task_1" ∈ (alookup
      (TaskManager.assign_task_to_device
        ((TaskManager.init Unit 0).create_task "tgt" .TRACK_TARGET
          .HIGH 0).2 "task_1" "d1" 1).2.device_to_tasks "d1").getD [] ∧
    hasKey
      (TaskManager.assign_task_to_device
        (TaskManager.assign_task_to_device
          ((TaskManager.init Unit 0).create_task "tgt" .TRACK_TARGET
            .HIGH 0).2 "task_1" "d1" 1).2
        "task_1" "d2" 2).2.device_to_tasks "d1"
      = true := by
  refine ⟨?_, ?_, ?_⟩
  · exact (assign_task_to_device_spec Unit
      ((TaskManager.init Unit 0).create_task "tgt" .TRACK_TARGET
        .HIGH 0).2 "bogus" "d1" 1).1 (by rfl)
  · exact ((assign_task_to_device_spec Unit
      ((TaskManager.init Unit 0).create_task "tgt" .TRACK_TARGET
        .HIGH 0).2 "task_1" "d1" 1).2.1
      (Task.create Unit "task_1" "tgt" .TRACK_TARGET .HIGH 0)
      (by rfl)).2.2.1
  · exact ((assign_task_to_device_spec Unit
      (TaskManager.assign_task_to_device
        ((TaskManager.init Unit 0).create_task "tgt" .TRACK_TARGET
          .HIGH 0).2 "task_1" "d1" 1).2
      "task_1" "d2" 2).2.2.1
      ((Task.create Unit "task_1" "tgt" .TRACK_TARGET .HIGH 0
        ).set_device_id "d1" 1)
      (by rfl) (by decide) (by decide)).1

/-- `std::max_element` characterisation: the fold either keeps the seed
(when nothing beats it) or returns the first element that strictly beats
everything before it and is not beaten later. -/
theorem foldl_max_first {α β : Type} [LinearOrder β] (prio : α → β)
    (t : List α) (best : α) :
    (t.foldl (fun b c => if prio b < prio c then c else b) best = best ∧
      ∀ y ∈ t, prio y ≤ prio best) ∨
    (∃ t1 t2,
      t = t1 ++
        (t.foldl (fun b c => if prio b < prio c then c else b) best) :: t2 ∧
      prio best <
        prio (t.foldl (fun b c => if prio b < prio c then c else b) best) ∧
      (∀ y ∈ t1, prio y <
        prio (t.foldl (fun b c => if prio b < prio c then c else b) best)) ∧
      (∀ y ∈ t2, prio y ≤
        prio (t.foldl (fun b c => if prio b < prio c then c else b) best))) := by
  induction t generalizing best with
  | nil =>
    left
    exact ⟨rfl, by simp⟩
  | cons c t ih =>
    by_cases h : prio best < prio c
    · have hstep :
          (c :: t).foldl (fun b c => if prio b < prio c then c else b) best
            = t.foldl (fun b c => if prio b < prio c then c else b) c := by
        simp [List.foldl_cons, if_pos h]
      rcases ih c with ⟨heq, hall⟩ | ⟨t1, t2, hsplit, hgt, h1, h2⟩
      · right
        refine ⟨[], t, ?_, ?_, by simp, ?_⟩
        · rw [hstep, heq]
          simp
        · rw [hstep, heq]
          exact h
        · intro y hy
          rw [hstep, heq]
          exact hall y hy
      · right
        refine ⟨c :: t1, t2, ?_, ?_, ?_, ?_⟩
        · rw [hstep]
          simpa using hsplit
        · rw [hstep]
          exact lt_trans h hgt
        · intro y hy
          rw [hstep]
          rcases List.mem_cons.mp hy with rfl | hmem
          · exact hgt
          · exact h1 y hmem
        · intro y hy
          rw [hstep]
          exact h2 y hy
    · have hstep :
          (c :: t).foldl (fun b c => if prio b < prio c then c else b) best
            = t.foldl (fun b c => if prio b < prio c then c else b) best := by
        simp [List.foldl_cons, if_neg h]
      have hc : prio c ≤ prio best := le_of_not_lt h
      rcases ih best with ⟨heq, hall⟩ | ⟨t1, t2, hsplit, hgt, h1, h2⟩
      · left
        constructor
        · rw [hstep]
          exact heq
        · intro y hy
          rcases List.mem_cons.mp hy with rfl | hmem
          · exact hc
          · exact hall y hmem
      · right
        refine ⟨c :: t1, t2, ?_, ?_, ?_, ?_⟩
        · rw [hstep]
          simpa using hsplit
        · rw [hstep]
          exact hgt
        · intro y hy
          rw [hstep]
          rcases List.mem_cons.mp hy with rfl | hmem
          · exact lt_of_le_of_lt hc hgt
          · exact h1 y hmem
        · intro y hy
          rw [hstep]
          exact h2 y hy

/-- The generic sort contract behind both reference prioritizers. -/
theorem prioritize_targets_perm_sorted {α β : Type} [LinearOrder β]
    (prio : α → β) (l : List α) :
    (prioritize_targets prio l).Perm l ∧
    ∀ i j : Fin (prioritize_targets prio l).length, i < j →
      prio ((prioritize_targets prio l).get j) ≤
        prio ((prioritize_targets prio l).get i) := by
  haveI : IsTotal α (fun a b => prio b ≤ prio a) :=
    ⟨fun a b => le_total (prio b) (prio a)⟩
  haveI : IsTrans α (fun a b => prio b ≤ prio a) :=
    ⟨fun a b c h1 h2 => le_trans h2 h1⟩
  constructor
  · exact List.perm_insertionSort _ l
  · intro i j hij
    exact (List.sorted_insertionSort (fun a b => prio b ≤ prio a)
      l).rel_get_of_lt hij

/-- The generic best-element contract behind both reference
prioritizers. -/
theorem select_highest_first_max {α β : Type} [LinearOrder β]
    (prio : α → β) (l : List α) (x : α)
    (h : select_highest_priority_target prio l = some x) :
    ∃ l1 l2, l = l1 ++ x :: l2 ∧ (∀ y ∈ l1, prio y < prio x) ∧
      ∀ y ∈ l2, prio y ≤ prio x := by
  cases l with
  | nil => simp [select_highest_priority_target] at h
  | cons hd t =>
    have hx :
        t.foldl (fun b c => if prio b < prio c then c else b) hd = x := by
      simpa [select_highest_priority_target] using h
    rcases foldl_max_first prio t hd with ⟨heq, hall⟩ |
      ⟨t1, t2, hsplit, hgt, h1, h2⟩
    · have hhd : hd = x := by rw [← hx, heq]
      subst hhd
      exact ⟨[], t, by simp, by simp, fun y hy => hall y hy⟩
    · rw [hx] at hsplit hgt h1 h2
      refine ⟨hd :: t1, t2, by simpa using hsplit, ?_, h2⟩
      intro y hy
      rcases List.mem_cons.mp hy with rfl | hmem
      · exact hgt
      · exact h1 y hmem

/-- C7: for both reference prioritizers (confidence-based and
threat-based, for every `MathOps` interpretation of the float library and
every weight set), `prioritize_targets` returns a permutation of its
input that is descending in priority (`∀ i < j`, `priority(out[i]) ≥
priority(out[j])`), and `select_highest_priority_target` returns `none`
on the empty list and otherwise the first occurrence, in scan order, of
a maximal-priority target.  The first-occurrence decomposition `l = l1 ++
x :: l2` with everything before `x` strictly smaller and nothing after
`x` larger pins both maximality and the tie-break. -/
theorem prioritizer_sort_perm_best :
    (∀ (l : List Target),
      (ConfidenceBasedPrioritizer.prioritize_targets l).Perm l ∧
      ∀ i j : Fin (ConfidenceBasedPrioritizer.prioritize_targets l).length,
        i < j →
        ((ConfidenceBasedPrioritizer.prioritize_targets l).get
          j).confidence ≤
        ((ConfidenceBasedPrioritizer.prioritize_targets l).get
          i).confidence) ∧
    (∀ (ops : MathOps) (params : ThreatParameters) (l : List Target),
      (ThreatBasedPrioritizer.prioritize_targets ops params l).Perm l ∧
      ∀ i j :
          Fin (ThreatBasedPrioritizer.prioritize_targets ops params l).length,
        i < j →
        ThreatBasedPrioritizer.calculate_priority ops params
          ((ThreatBasedPrioritizer.prioritize_targets ops params l).get j) ≤
        ThreatBasedPrioritizer.calculate_priority ops params
          ((ThreatBasedPrioritizer.prioritize_targets ops params l).get i)) ∧
    (ConfidenceBasedPrioritizer.select_highest_priority_target [] = none) ∧
    (∀ (ops : MathOps) (params : ThreatParameters),
      ThreatBasedPrioritizer.select_highest_priority_target ops params []
        = none) ∧
    (∀ (l : List Target) (x : Target),
      ConfidenceBasedPrioritizer.select_highest_priority_target l = some x →
      ∃ l1 l2, l = l1 ++ x :: l2 ∧
        (∀ y ∈ l1, y.confidence < x.confidence) ∧
        ∀ y ∈ l2, y.confidence ≤ x.confidence) ∧
    (∀ (ops : MathOps) (params : ThreatParameters) (l : List Target)
        (x : Target),
      ThreatBasedPrioritizer.select_highest_priority_target ops params l
        = some x →
      ∃ l1 l2, l = l1 ++ x :: l2 ∧
        (∀ y ∈ l1, ThreatBasedPrioritizer.calculate_priority ops params y <
          ThreatBasedPrioritizer.calculate_priority ops params x) ∧
        ∀ y ∈ l2, ThreatBasedPrioritizer.calculate_priority ops params y ≤
          ThreatBasedPrioritizer.calculate_priority ops params x) := by
  refine ⟨?_, ?_, rfl, fun _ _ => rfl, ?_, ?_⟩
  · intro l
    exact prioritize_targets_perm_sorted
      ConfidenceBasedPrioritizer.calculate_priority l
  · intro ops params l
    exact prioritize_targets_perm_sorted
      (ThreatBasedPrioritizer.calculate_priority ops params) l
  · intro l x h
    exact select_highest_first_max
      ConfidenceBasedPrioritizer.calculate_priority l x h
  · intro ops params l x h
    exact select_highest_first_max
      (ThreatBasedPrioritizer.calculate_priority ops params) l x h

/-- Witness for C7's conditional clause: on two targets with confidences
0.9 and 0.4, `best` picks the first. -/
theorem prioritizer_sort_perm_best_witness :
    ∃ l1 l2,
      [({ target_id := "a", confidence := 9/10 } : Target),
       { target_id := "b", confidence := 2/5 }] = l1 ++
        ({ target_id := "a", confidence := 9/10 } : Target) :: l2 ∧
      (∀ y ∈ l1, y.confidence <
        ({ target_id := "a", confidence := 9/10 } : Target).confidence) ∧
      ∀ y ∈ l2, y.confidence ≤
        ({ target_id := "a", confidence := 9/10 } : Target).confidence := by
  refine prioritizer_sort_perm_best.2.2.2.2.1
    [{ target_id := "a", confidence := 9/10 },
     { target_id := "b", confidence := 2/5 }]
    { target_id := "a", confidence := 9/10 } ?_
  show some _ = some _
  congr 1
  show (if ((9:ℚ)/10 < 2/5) then _ else _) = _
  rw [if_neg (by norm_num)]

/-- C9 counterexample: a stationary target off the origin, `pos =
(1,0,0)`, `vel = (0,0,0)`.  The heading block is guarded only by
`range > 0` — the velocity norm is NOT checked — so it executes the
division `-(pos·vel) / (range*speed)` with divisor `range*speed = 1*0 =
0` (in IEEE arithmetic `0.0f/0.0f`, a NaN), refuting "never divides by
zero and never produces NaN".  The stubbed `sqrt` agrees with the real
square root at the two evaluated points (`sqrt 1 = 1`, `sqrt 0 = 0`). -/
theorem threat_priority_divides_by_zero_when_stationary :
    (ThreatBasedPrioritizer.calculate_priority_checked
      { cos := fun _ => 1, sin := fun _ => 0
        sqrt := fun q => if q = 1 then 1 else 0
        exp := fun _ => 1, atan2 := fun _ _ => 0, asin := fun _ => 0 }
      {} { target_id := "stationary", x := 1 }).2 = true := by
  norm_num [ThreatBasedPrioritizer.calculate_priority_checked]

/-- C9 (amended): the result of `calculate_priority` always equals
`clamp(range_weight·range_score + velocity_weight·velocity_score +
confidence_weight·confidence + heading_weight·heading_score, 0, 1)`,
where the heading score contributes 0 whenever the position norm is 0
**or** the velocity norm is 0 — but not because the code skips the
computation: the guard checks only `range > 0`, and for `range > 0,
speed = 0` the division `0/0` is executed (a NaN) and then absorbed by
`std::max(0.0f, ·)`, whose comparison against NaN is false.  The flag of
`calculate_priority_checked` is true exactly on those
division-by-zero inputs. -/
theorem threat_priority_clamped_formula (ops : MathOps)
    (params : ThreatParameters) (t : Target) :
    ThreatBasedPrioritizer.calculate_priority ops params t =
      clampQ
        (params.range_weight *
          (if 0 < ops.sqrt (t.x * t.x + t.y * t.y + t.z * t.z) then
            ops.exp (-(ops.sqrt (t.x * t.x + t.y * t.y + t.z * t.z)) / 100)
          else 1) +
         params.velocity_weight *
          min 1 (ops.sqrt (t.vx * t.vx + t.vy * t.vy + t.vz * t.vz) / 50) +
         params.confidence_weight * t.confidence +
         params.heading_weight *
          (if 0 < ops.sqrt (t.x * t.x + t.y * t.y + t.z * t.z) ∧
              ops.sqrt (t.vx * t.vx + t.vy * t.vy + t.vz * t.vz) ≠ 0 then
            max 0 (-(t.vx * t.x + t.vy * t.y + t.vz * t.z) /
              (ops.sqrt (t.x * t.x + t.y * t.y + t.z * t.z) *
               ops.sqrt (t.vx * t.vx + t.vy * t.vy + t.vz * t.vz)))
          else 0)) 0 1 ∧
    ((ThreatBasedPrioritizer.calculate_priority_checked ops params t).2 = true
      ↔ 0 < ops.sqrt (t.x * t.x + t.y * t.y + t.z * t.z) ∧
        ops.sqrt (t.vx * t.vx + t.vy * t.vy + t.vz * t.vz) = 0) := by
  unfold ThreatBasedPrioritizer.calculate_priority
    ThreatBasedPrioritizer.calculate_priority_checked
  set range := ops.sqrt (t.x * t.x + t.y * t.y + t.z * t.z) with hrange
  set speed := ops.sqrt (t.vx * t.vx + t.vy * t.vy + t.vz * t.vz) with hspeed
  by_cases hr : 0 < range
  · simp only [if_pos hr]
    by_cases hs : speed = 0
    · constructor
      · have hdvd : fdiv (-(t.vx * t.x + t.vy * t.y + t.vz * t.z))
            (range * speed) = none := by
          unfold fdiv
          rw [if_pos (by rw [hs, mul_zero])]
        rw [hdvd]
        rw [if_neg (by
          intro hcon
          exact hcon.2 hs)]
        simp [floatMax0]
      · simp [hs, hr]
    · constructor
      · have hne : range * speed ≠ 0 := mul_ne_zero (ne_of_gt hr) hs
        have hdvd : fdiv (-(t.vx * t.x + t.vy * t.y + t.vz * t.z))
            (range * speed) = some (-(t.vx * t.x + t.vy * t.y + t.vz * t.z)
              / (range * speed)) := by
          unfold fdiv
          rw [if_neg hne]
        rw [hdvd]
        rw [if_pos ⟨hr, hs⟩]
        simp [floatMax0]
      · have hne : range * speed ≠ 0 := mul_ne_zero (ne_of_gt hr) hs
        simp [hne, hs]
  · simp only [if_neg hr]
    constructor
    · rw [if_neg (by
        intro hcon
        exact hr hcon.1)]
      ring_nf
    · simp [hr]

/-- Witness for C9's amended theorem at concrete `MathOps` and a concrete
target (`pos = (1,0,0)`, `vel = 0`): the flag equivalence yields the
zero-divisor fact from `sqrt 1 = 1 > 0` and `sqrt 0 = 0`. -/
theorem threat_priority_clamped_formula_witness :
    (ThreatBasedPrioritizer.calculate_priority_checked
      { cos := fun _ => 1, sin := fun _ => 0
        sqrt := fun q => if q = 1 then 1 else 0
        exp := fun _ => 1, atan2 := fun _ _ => 0, asin := fun _ => 0 }
      {} { target_id := "w", x := 1 }).2 = true := by
  refine (threat_priority_clamped_formula
      { cos := fun _ => 1, sin := fun _ => 0
        sqrt := fun q => if q = 1 then 1 else 0
        exp := fun _ => 1, atan2 := fun _ _ => 0, asin := fun _ => 0 }
      {} { target_id := "w", x := 1 }).2.mpr ⟨?_, ?_⟩
  · show (0:ℚ) < (if ((1:ℚ) * 1 + 0 * 0 + 0 * 0) = 1 then (1:ℚ) else 0)
    norm_num
  · show (if ((0:ℚ) * 0 + 0 * 0 + 0 * 0) = 1 then (1:ℚ) else 0) = 0
    norm_num

/-- C4 counterexample: delivering the single radar detection `{range =
50, azimuth = 0, elevation = 0, rcs = 1}` to `process_l1_message` in the
initial IDLE state leaves the algorithm in ACQUIRING, not IDLE: the radar
handler ends with `handle_trigger("target_detected")`, which fires the
`detection` transition during message processing, not on the following
`update`.  Also the created target sits at `(5, 0, 0)`, since the
position filter gives the measurement `(50, 0, 0)` only the weight `α =
0.1`. -/
theorem radar_processing_leaves_acquiring_not_idle :
    (TargetTrackingAlgorithm.process_l1_message scenarioOps 1
      (TargetTrackingAlgorithm.initialize_algorithm scenarioOps 0).1
      (TargetTrackingAlgorithm.initialize_algorithm scenarioOps 0).2
      scenarioRadarMsg).2.current_state_name = "ACQUIRING" ∧
    ¬ (TargetTrackingAlgorithm.process_l1_message scenarioOps 1
      (TargetTrackingAlgorithm.initialize_algorithm scenarioOps 0).1
      (TargetTrackingAlgorithm.initialize_algorithm scenarioOps 0).2
      scenarioRadarMsg).2.current_state_name = "IDLE" ∧
    (alookup (TargetTrackingAlgorithm.process_l1_message scenarioOps 1
      (TargetTrackingAlgorithm.initialize_algorithm scenarioOps 0).1
      (TargetTrackingAlgorithm.initialize_algorithm scenarioOps 0).2
      scenarioRadarMsg).2.data.targets "target_0").map Target.x
      = some 5 := by
  norm_num [TargetTrackingAlgorithm.initialize_algorithm,
    TargetTrackingAlgorithm.process_l1_message,
    process_radar_detections, find_closest_target, update_target_position,
    TargetTrackingAlgorithm.handle_trigger, ttStateMachine,
    StateManager.get_state, StateManager.curState, applyOptHook, alookup,
    aset, hasKey, TaskManager.init, TaskManager.register_device_capabilities,
    TaskManager.create_task, Task.create, Task.set_device_id,
    TaskManager.assign_task_to_device, bucketAppend, bucketErase,
    defaultTaskStateMachine, StateManager.try_transition,
    StateManager.try_transition.go, transitionEnabled, fireTransition,
    scenarioOps, scenarioRadarMsg]
  simp +decide

/-- C4 (amended): for every float-library interpretation that satisfies
`cos 0 = 1` and `sin 0 = 0` (exact for IEEE floats), delivering the S1
radar message to `process_l1_message` from the freshly initialised IDLE
state creates exactly one target, `target_0`, at Cartesian `(5, 0, 0)`
(the position filter weighs the measurement `(50, 0, 0)` by `α =
position_noise = 0.1`) with confidence 0.8 and one recorded radar
detection; creates exactly one task, `task_1`, of type TRACK_TARGET at
priority HIGH, ASSIGNED to `default_device` (which also becomes the
target's primary device); and fires the `detection` transition already
during message processing, leaving the algorithm in ACQUIRING with
`acquisition_start` stamped — not in IDLE, and not waiting for the next
`update` call. -/
theorem radar_message_fires_detection_immediately (ops : MathOps)
    (hcos : ops.cos 0 = 1) (hsin : ops.sin 0 = 0) (t0 t1 : ℚ) :
    (TargetTrackingAlgorithm.process_l1_message ops t1
      (TargetTrackingAlgorithm.initialize_algorithm ops t0).1
      (TargetTrackingAlgorithm.initialize_algorithm ops t0).2
      scenarioRadarMsg).2.current_state_name = "ACQUIRING" ∧
    (TargetTrackingAlgorithm.process_l1_message ops t1
      (TargetTrackingAlgorithm.initialize_algorithm ops t0).1
      (TargetTrackingAlgorithm.initialize_algorithm ops t0).2
      scenarioRadarMsg).2.data.targets =
      [("target_0",
        { target_id := "target_0", x := 5, y := 0, z := 0, vx := 0, vy := 0,
          vz := 0, confidence := 4/5, last_update := some t1,
          sensor_detections := [("radar_node", 1)] })] ∧
    (TargetTrackingAlgorithm.process_l1_message ops t1
      (TargetTrackingAlgorithm.initialize_algorithm ops t0).1
      (TargetTrackingAlgorithm.initialize_algorithm ops t0).2
      scenarioRadarMsg).2.data.acquisition_start = some t1 ∧
    (alookup (TargetTrackingAlgorithm.process_l1_message ops t1
      (TargetTrackingAlgorithm.initialize_algorithm ops t0).1
      (TargetTrackingAlgorithm.initialize_algorithm ops t0).2
      scenarioRadarMsg).1.tasks "task_1").map
        (fun tk => (tk.target_id, tk.type, tk.priority, tk.device_id,
          tk.status, tk.assigned_time)) =
      some ("target_0", .TRACK_TARGET, .HIGH, "default_device",
        .ASSIGNED, some t1) ∧
    (TargetTrackingAlgorithm.process_l1_message ops t1
      (TargetTrackingAlgorithm.initialize_algorithm ops t0).1
      (TargetTrackingAlgorithm.initialize_algorithm ops t0).2
      scenarioRadarMsg).1.tasks.length = 1 ∧
    alookup (TargetTrackingAlgorithm.process_l1_message ops t1
      (TargetTrackingAlgorithm.initialize_algorithm ops t0).1
      (TargetTrackingAlgorithm.initialize_algorithm ops t0).2
      scenarioRadarMsg).1.target_primary_device "target_0"
      = some "default_device" := by
  norm_num [TargetTrackingAlgorithm.initialize_algorithm,
    TargetTrackingAlgorithm.process_l1_message,
    process_radar_detections, find_closest_target, update_target_position,
    TargetTrackingAlgorithm.handle_trigger, ttStateMachine,
    StateManager.get_state, StateManager.curState, applyOptHook, alookup,
    aset, hasKey, TaskManager.init, TaskManager.register_device_capabilities,
    TaskManager.create_task, Task.create, Task.set_device_id,
    TaskManager.assign_task_to_device, bucketAppend, bucketErase,
    defaultTaskStateMachine, StateManager.try_transition,
    StateManager.try_transition.go, transitionEnabled, fireTransition,
    scenarioOps, scenarioRadarMsg, hcos, hsin]
  simp +decide

/-- Witness for C4's amended theorem at the concrete scenario `MathOps`
(whose `cos`/`sin` stubs satisfy the two hypotheses by computation). -/
theorem radar_message_fires_detection_immediately_witness :
    (TargetTrackingAlgorithm.process_l1_message scenarioOps 1
      (TargetTrackingAlgorithm.initialize_algorithm scenarioOps 0).1
      (TargetTrackingAlgorithm.initialize_algorithm scenarioOps 0).2
      scenarioRadarMsg).2.current_state_name = "ACQUIRING" ∧
    (TargetTrackingAlgorithm.process_l1_message scenarioOps 1
      (TargetTrackingAlgorithm.initialize_algorithm scenarioOps 0).1
      (TargetTrackingAlgorithm.initialize_algorithm scenarioOps 0).2
      scenarioRadarMsg).2.data.acquisition_start = some 1 :=
  ⟨(radar_message_fires_detection_immediately scenarioOps rfl rfl 0 1).1,
   (radar_message_fires_detection_immediately scenarioOps rfl rfl
     0 1).2.2.1⟩

end DpAero
